import Mathlib

/-!
Verification development for the rustls handshake core.

Shallow embedding of:
 - the handshake wire codec       (src/msgs/handshake.rs)
 - the ciphersuite registry       (src/suites.rs)
 - the client handshake handlers  (src/client_hs.rs)
 - the server handshake handlers  (src/server_hs.rs)

Machine integers are modelled as `Nat` with explicit `% 256` truncation
where the source casts to a smaller width.  Wire data is `List Nat`.
Fallible parsing returns `Option`; fallible handlers return `Except`.
-/

namespace Rustls

/-- Wire bytes: a list of naturals, each intended to be < 256. -/
abbrev Bytes := List Nat

namespace Codec

/- Modelled from the spec: `src/msgs/codec.rs` is not among the provided
source files.  §4.1 fixes its behaviour: integers are big-endian, and
vectors carry an explicit byte-length prefix (u8, u16 or u24) followed by
the encodings of their items. -/

/-- Modelled from the spec: the missing codec.rs writer — write a u8 (low byte of the value, as the Rust `as u8` cast). -/
def encodeU8 (v : Nat) : Bytes := [v % 256]

/-- Modelled from the spec: the missing codec.rs writer — write a big-endian u16. -/
def encodeU16 (v : Nat) : Bytes := [v / 256 % 256, v % 256]

/-- Modelled from the spec: the missing codec.rs writer — write a big-endian u24. -/
def encodeU24 (v : Nat) : Bytes := [v / 65536 % 256, v / 256 % 256, v % 256]

/-- Modelled from the spec: the missing codec.rs writer — write a big-endian u32. -/
def encodeU32 (v : Nat) : Bytes :=
  [v / 16777216 % 256, v / 65536 % 256, v / 256 % 256, v % 256]

/-- Modelled from the spec: the missing codec.rs reader — read one byte. -/
def readU8 : Bytes → Option (Nat × Bytes)
  | [] => none
  | b :: rest => some (b, rest)

/-- Modelled from the spec: the missing codec.rs reader — read a big-endian u16. -/
def readU16 (bs : Bytes) : Option (Nat × Bytes) := do
  let (hi, bs1) ← readU8 bs
  let (lo, bs2) ← readU8 bs1
  pure (hi * 256 + lo, bs2)

/-- Modelled from the spec: the missing codec.rs reader — read a big-endian u24. -/
def readU24 (bs : Bytes) : Option (Nat × Bytes) := do
  let (hi, bs1) ← readU8 bs
  let (mid, bs2) ← readU8 bs1
  let (lo, bs3) ← readU8 bs2
  pure (hi * 65536 + mid * 256 + lo, bs3)

/-- Modelled from the spec: the missing codec.rs reader — read a big-endian u32. -/
def readU32 (bs : Bytes) : Option (Nat × Bytes) := do
  let (hi, bs1) ← readU16 bs
  let (lo, bs2) ← readU16 bs1
  pure (hi * 65536 + lo, bs2)

/-- Modelled from the spec: the missing codec.rs item `Reader::take` / `Reader::sub`: split off exactly `n` bytes,
failing when fewer are available. -/
def takeBytes (n : Nat) (bs : Bytes) : Option (Bytes × Bytes) :=
  if n ≤ bs.length then some (bs.take n, bs.drop n) else none

/-- Modelled from the spec: run an item reader repeatedly until the buffer is exhausted
(the `while sub.any_left()` loop of the vector readers).  `fuel` bounds the
iteration count; every item reader in this file consumes at least one byte
per successful item, so `fuel = bs.length` reproduces the Rust loop. -/
def readItems {α : Type} (p : Bytes → Option (α × Bytes)) :
    Nat → Bytes → Option (List α)
  | _, [] => some []
  | 0, _ :: _ => none
  | fuel + 1, bs => do
    let (x, rest) ← p bs
    let xs ← readItems p fuel rest
    pure (x :: xs)

/-- Modelled from the spec: the missing codec.rs writer — encode a vector with a u8 byte-length prefix. -/
def encodeVecU8 {α : Type} (enc : α → Bytes) (xs : List α) : Bytes :=
  let sub := (xs.map enc).flatten
  encodeU8 sub.length ++ sub

/-- Modelled from the spec: the missing codec.rs writer — encode a vector with a u16 byte-length prefix. -/
def encodeVecU16 {α : Type} (enc : α → Bytes) (xs : List α) : Bytes :=
  let sub := (xs.map enc).flatten
  encodeU16 sub.length ++ sub

/-- Modelled from the spec: the missing codec.rs writer — encode a vector with a u24 byte-length prefix. -/
def encodeVecU24 {α : Type} (enc : α → Bytes) (xs : List α) : Bytes :=
  let sub := (xs.map enc).flatten
  encodeU24 sub.length ++ sub

/-- Modelled from the spec: the missing codec.rs reader — read a vector with a u8 byte-length prefix. -/
def readVecU8 {α : Type} (p : Bytes → Option (α × Bytes)) (bs : Bytes) :
    Option (List α × Bytes) := do
  let (len, bs1) ← readU8 bs
  let (sub, rest) ← takeBytes len bs1
  let xs ← readItems p sub.length sub
  pure (xs, rest)

/-- Modelled from the spec: the missing codec.rs reader — read a vector with a u16 byte-length prefix. -/
def readVecU16 {α : Type} (p : Bytes → Option (α × Bytes)) (bs : Bytes) :
    Option (List α × Bytes) := do
  let (len, bs1) ← readU16 bs
  let (sub, rest) ← takeBytes len bs1
  let xs ← readItems p sub.length sub
  pure (xs, rest)

/-- Modelled from the spec: the missing codec.rs reader — read a vector with a u24 byte-length prefix. -/
def readVecU24 {α : Type} (p : Bytes → Option (α × Bytes)) (bs : Bytes) :
    Option (List α × Bytes) := do
  let (len, bs1) ← readU24 bs
  let (sub, rest) ← takeBytes len bs1
  let xs ← readItems p sub.length sub
  pure (xs, rest)

/-- Modelled from the spec: the missing codec.rs item `PayloadU8` (src/msgs/base.rs, modelled from the spec): opaque bytes
with a u8 length prefix. -/
def encodePayloadU8 (p : Bytes) : Bytes := encodeU8 p.length ++ p

/-- Modelled from the spec: the missing codec.rs reader — read a `PayloadU8`. -/
def readPayloadU8 (bs : Bytes) : Option (Bytes × Bytes) := do
  let (len, bs1) ← readU8 bs
  takeBytes len bs1

/-- Modelled from the spec: the missing codec.rs item `PayloadU16`: opaque bytes with a u16 length prefix. -/
def encodePayloadU16 (p : Bytes) : Bytes := encodeU16 p.length ++ p

/-- Modelled from the spec: the missing codec.rs reader — read a `PayloadU16`. -/
def readPayloadU16 (bs : Bytes) : Option (Bytes × Bytes) := do
  let (len, bs1) ← readU16 bs
  takeBytes len bs1

/-- Modelled from the spec: the missing codec.rs item `PayloadU24`: opaque bytes with a u24 length prefix. -/
def encodePayloadU24 (p : Bytes) : Bytes := encodeU24 p.length ++ p

/-- Modelled from the spec: the missing codec.rs reader — read a `PayloadU24`. -/
def readPayloadU24 (bs : Bytes) : Option (Bytes × Bytes) := do
  let (len, bs1) ← readU24 bs
  takeBytes len bs1

/-- Modelled from the spec: the missing codec.rs item `Payload::read`: consume the whole remaining buffer. -/
def readPayloadRest (bs : Bytes) : Option (Bytes × Bytes) := some (bs, [])

end Codec

/-- UTF-8 validity of a byte sequence, mirroring what Rust
`String::from_utf8` accepts (used by `ServerNamePayload::read_hostname`). -/
def validUtf8 : Bytes → Bool
  | [] => true
  | b :: rest =>
    if b ≤ 0x7f then validUtf8 rest
    else if 0xc2 ≤ b && b ≤ 0xdf then
      match rest with
      | c1 :: r => (0x80 ≤ c1 && c1 ≤ 0xbf) && validUtf8 r
      | [] => false
    else if b = 0xe0 then
      match rest with
      | c1 :: c2 :: r =>
        (0xa0 ≤ c1 && c1 ≤ 0xbf) && (0x80 ≤ c2 && c2 ≤ 0xbf) && validUtf8 r
      | _ => false
    else if (0xe1 ≤ b && b ≤ 0xec) || b = 0xee || b = 0xef then
      match rest with
      | c1 :: c2 :: r =>
        (0x80 ≤ c1 && c1 ≤ 0xbf) && (0x80 ≤ c2 && c2 ≤ 0xbf) && validUtf8 r
      | _ => false
    else if b = 0xed then
      match rest with
      | c1 :: c2 :: r =>
        (0x80 ≤ c1 && c1 ≤ 0x9f) && (0x80 ≤ c2 && c2 ≤ 0xbf) && validUtf8 r
      | _ => false
    else if b = 0xf0 then
      match rest with
      | c1 :: c2 :: c3 :: r =>
        (0x90 ≤ c1 && c1 ≤ 0xbf) && (0x80 ≤ c2 && c2 ≤ 0xbf) &&
          (0x80 ≤ c3 && c3 ≤ 0xbf) && validUtf8 r
      | _ => false
    else if 0xf1 ≤ b && b ≤ 0xf3 then
      match rest with
      | c1 :: c2 :: c3 :: r =>
        (0x80 ≤ c1 && c1 ≤ 0xbf) && (0x80 ≤ c2 && c2 ≤ 0xbf) &&
          (0x80 ≤ c3 && c3 ≤ 0xbf) && validUtf8 r
      | _ => false
    else if b = 0xf4 then
      match rest with
      | c1 :: c2 :: c3 :: r =>
        (0x80 ≤ c1 && c1 ≤ 0x8f) && (0x80 ≤ c2 && c2 ≤ 0xbf) &&
          (0x80 ≤ c3 && c3 ≤ 0xbf) && validUtf8 r
      | _ => false
    else false

/- Protocol enumerations (src/msgs/enums.rs is not among the provided
source files).  Modelled from the spec (§4.1, §6: wire formats per RFC 5246
and draft-ietf-tls-tls13-18): every enumeration is a u8/u16 code with an
Unknown catch-all, so each is represented by its `Nat` code, which the
codec reads and writes verbatim.  Named constants give the code points the
provided sources mention. -/

/-- Modelled from the spec: the missing enums.rs code `ProtocolVersion::TLSv1_0`. -/
def pvTLSv1_0 : Nat := 0x0301

/-- Modelled from the spec: the missing enums.rs code `ProtocolVersion::TLSv1_2`. -/
def pvTLSv1_2 : Nat := 0x0303

/-- Modelled from the spec: the missing enums.rs code `ProtocolVersion::TLSv1_3`. -/
def pvTLSv1_3 : Nat := 0x0304

/-- Modelled from the spec: the missing enums.rs code `ProtocolVersion::Unknown(0x7f12)`, the TLS 1.3 draft-18 code
(`TLS13_DRAFT` in src/client_hs.rs). -/
def pvTLS13Draft : Nat := 0x7f12

/-- Modelled from the spec: the missing enums.rs code `HandshakeType` u8 codes. -/
def htHelloRequest : Nat := 0

/-- Modelled from the spec: the missing enums.rs code `HandshakeType::ClientHello`. -/
def htClientHello : Nat := 1

/-- Modelled from the spec: the missing enums.rs code `HandshakeType::ServerHello`. -/
def htServerHello : Nat := 2

/-- Modelled from the spec: the missing enums.rs code `HandshakeType::NewSessionTicket`. -/
def htNewSessionTicket : Nat := 4

/-- Modelled from the spec: the missing enums.rs code `HandshakeType::HelloRetryRequest` (draft-18). -/
def htHelloRetryRequest : Nat := 6

/-- Modelled from the spec: the missing enums.rs code `HandshakeType::EncryptedExtensions`. -/
def htEncryptedExtensions : Nat := 8

/-- Modelled from the spec: the missing enums.rs code `HandshakeType::Certificate`. -/
def htCertificate : Nat := 11

/-- Modelled from the spec: the missing enums.rs code `HandshakeType::ServerKeyExchange`. -/
def htServerKeyExchange : Nat := 12

/-- Modelled from the spec: the missing enums.rs code `HandshakeType::CertificateRequest`. -/
def htCertificateRequest : Nat := 13

/-- Modelled from the spec: the missing enums.rs code `HandshakeType::ServerHelloDone`. -/
def htServerHelloDone : Nat := 14

/-- Modelled from the spec: the missing enums.rs code `HandshakeType::CertificateVerify`. -/
def htCertificateVerify : Nat := 15

/-- Modelled from the spec: the missing enums.rs code `HandshakeType::ClientKeyExchange`. -/
def htClientKeyExchange : Nat := 16

/-- Modelled from the spec: the missing enums.rs code `HandshakeType::Finished`. -/
def htFinished : Nat := 20

/-- Modelled from the spec: the missing enums.rs code `HandshakeType::KeyUpdate`. -/
def htKeyUpdate : Nat := 24

/-- Modelled from the spec: the missing enums.rs code `ExtensionType::ServerName`. -/
def extServerName : Nat := 0

/-- Modelled from the spec: the missing enums.rs code `ExtensionType::EllipticCurves`. -/
def extEllipticCurves : Nat := 10

/-- Modelled from the spec: the missing enums.rs code `ExtensionType::ECPointFormats`. -/
def extECPointFormats : Nat := 11

/-- Modelled from the spec: the missing enums.rs code `ExtensionType::SignatureAlgorithms`. -/
def extSignatureAlgorithms : Nat := 13

/-- Modelled from the spec: the missing enums.rs code `ExtensionType::Heartbeat`. -/
def extHeartbeat : Nat := 15

/-- Modelled from the spec: the missing enums.rs code `ExtensionType::ALProtocolNegotiation`. -/
def extALProtocolNegotiation : Nat := 16

/-- Modelled from the spec: the missing enums.rs code `ExtensionType::SessionTicket`. -/
def extSessionTicket : Nat := 35

/-- Modelled from the spec: the missing enums.rs code `ExtensionType::KeyShare` (draft-18). -/
def extKeyShare : Nat := 40

/-- Modelled from the spec: the missing enums.rs code `ExtensionType::SupportedVersions`. -/
def extSupportedVersions : Nat := 43

/-- Modelled from the spec: the missing enums.rs code `ExtensionType::Cookie`. -/
def extCookie : Nat := 44

/-- Modelled from the spec: the missing enums.rs code `ExtensionType::RenegotiationInfo`. -/
def extRenegotiationInfo : Nat := 0xff01

/-- Modelled from the spec: the missing enums.rs code `NamedGroup::X25519`. -/
def ngX25519 : Nat := 0x001d

/-- Modelled from the spec: the missing enums.rs code `NamedGroup::secp256r1`. -/
def ngSecp256r1 : Nat := 0x0017

/-- Modelled from the spec: the missing enums.rs code `NamedGroup::secp384r1`. -/
def ngSecp384r1 : Nat := 0x0018

/-- Modelled from the spec: the missing enums.rs code `ECPointFormat::Uncompressed`. -/
def epfUncompressed : Nat := 0

/-- Modelled from the spec: the missing enums.rs code `Compression::Null`. -/
def compressionNull : Nat := 0

/-- Modelled from the spec: the missing enums.rs code `ECCurveType::NamedCurve`. -/
def ectNamedCurve : Nat := 3

/-- Rust `Random` (src/msgs/handshake.rs): u32 time plus 28 opaque bytes. -/
structure Random where
  gmt_unix_time : Nat
  tail28 : Bytes
deriving DecidableEq, Repr

/-- Rust `Random::encode`. -/
def Random.encode (r : Random) : Bytes := Codec.encodeU32 r.gmt_unix_time ++ r.tail28

/-- Rust `Random::read`. -/
def Random.read (bs : Bytes) : Option (Random × Bytes) := do
  let (time, bs1) ← Codec.readU32 bs
  let (tl, bs2) ← Codec.takeBytes 28 bs1
  pure ({ gmt_unix_time := time, tail28 := tl }, bs2)

/-- Rust `SessionID` (src/msgs/handshake.rs lines 80-121). -/
structure SessionID where
  bytes : Bytes
deriving DecidableEq, Repr

/-- Rust `SessionID::new`: truncates its argument to 32 bytes. -/
def SessionID.new (bytes : Bytes) : SessionID := ⟨bytes.take 32⟩

/-- Rust `SessionID::empty`. -/
def SessionID.empty : SessionID := SessionID.new []

/-- Rust `SessionID::len`. -/
def SessionID.len (s : SessionID) : Nat := s.bytes.length

/-- Rust `SessionID::is_empty`. -/
def SessionID.is_empty (s : SessionID) : Bool := s.len = 0

/-- Rust `SessionID::encode`: u8 length then the bytes (the source
`debug_assert!(self.bytes.len() <= 32)` is proved separately). -/
def SessionID.encode (s : SessionID) : Bytes :=
  Codec.encodeU8 s.bytes.length ++ s.bytes

/-- Rust `SessionID::read`: length byte, take that many bytes, then reject
lengths over 32. -/
def SessionID.read (bs : Bytes) : Option (SessionID × Bytes) := do
  let (len, bs1) ← Codec.readU8 bs
  let (taken, rest) ← Codec.takeBytes len bs1
  if len ≤ 32 then pure (⟨taken⟩, rest) else none

/-- Rust `UnknownExtension`: an extension type with its raw body. -/
structure UnknownExtension where
  typ : Nat
  payload : Bytes
deriving DecidableEq, Repr

/-- Rust `UnknownExtension::encode` (body only; the type is written by the
enclosing extension encoder). -/
def UnknownExtension.encode (u : UnknownExtension) : Bytes := u.payload

/-- Rust `UnknownExtension::read`. -/
def UnknownExtension.read (typ : Nat) (bs : Bytes) :
    Option (UnknownExtension × Bytes) := do
  let (payload, rest) ← Codec.readPayloadRest bs
  pure ({ typ := typ, payload := payload }, rest)

/-- Rust `KeyShareEntry`: group id and u16-prefixed key exchange payload. -/
structure KeyShareEntry where
  group : Nat
  payload : Bytes
deriving DecidableEq, Repr

/-- Rust `KeyShareEntry::encode`. -/
def KeyShareEntry.encode (k : KeyShareEntry) : Bytes :=
  Codec.encodeU16 k.group ++ Codec.encodePayloadU16 k.payload

/-- Rust `KeyShareEntry::read`. -/
def KeyShareEntry.read (bs : Bytes) : Option (KeyShareEntry × Bytes) := do
  let (group, bs1) ← Codec.readU16 bs
  let (payload, bs2) ← Codec.readPayloadU16 bs1
  pure ({ group := group, payload := payload }, bs2)

/-- Rust `ServerNamePayload`: a hostname (stored as its UTF-8 bytes) or an
unknown payload. -/
inductive ServerNamePayload where
  | HostName (name : Bytes)
  | Unknown (payload : Bytes)
deriving DecidableEq, Repr

/-- Rust `ServerNamePayload::encode_hostname` / `encode`. -/
def ServerNamePayload.encode : ServerNamePayload → Bytes
  | .HostName name => Codec.encodeU16 name.length ++ name
  | .Unknown payload => payload

/-- Rust `ServerNamePayload::read_hostname`: u16 length, bytes, UTF-8 check. -/
def ServerNamePayload.read_hostname (bs : Bytes) :
    Option (ServerNamePayload × Bytes) := do
  let (len, bs1) ← Codec.readU16 bs
  let (name, rest) ← Codec.takeBytes len bs1
  if validUtf8 name then pure (.HostName name, rest) else none

/-- Rust `ServerNameType::HostName` u8 code. -/
def sntHostName : Nat := 0

/-- Rust `ServerName`: type byte plus payload. -/
structure ServerName where
  typ : Nat
  payload : ServerNamePayload
deriving DecidableEq, Repr

/-- Rust `ServerName::encode`. -/
def ServerName.encode (s : ServerName) : Bytes :=
  Codec.encodeU8 s.typ ++ s.payload.encode

/-- Rust `ServerName::read`. -/
def ServerName.read (bs : Bytes) : Option (ServerName × Bytes) := do
  let (typ, bs1) ← Codec.readU8 bs
  if typ = sntHostName then do
    let (payload, bs2) ← ServerNamePayload.read_hostname bs1
    pure ({ typ := typ, payload := payload }, bs2)
  else do
    let (payload, bs2) ← Codec.readPayloadRest bs1
    pure ({ typ := typ, payload := .Unknown payload }, bs2)

/-- Rust `ClientExtension` (src/msgs/handshake.rs lines 396-409).  Enumerated
item types (point formats, groups, signature schemes, versions) are their
`Nat` codes. -/
inductive ClientExtension where
  | ECPointFormats (formats : List Nat)
  | NamedGroupsExt (groups : List Nat)
  | SignatureAlgorithms (schemes : List Nat)
  | Heartbeat (mode : Nat)
  | ServerNameReq (req : List ServerName)
  | SessionTicketRequest
  | SessionTicketOffer (payload : Bytes)
  | Protocols (names : List Bytes)
  | SupportedVersions (versions : List Nat)
  | KeyShare (shares : List KeyShareEntry)
  | Unknown (ext : UnknownExtension)
deriving DecidableEq, Repr

/-- Rust `ClientExtension::get_type`. -/
def ClientExtension.get_type : ClientExtension → Nat
  | .ECPointFormats _ => extECPointFormats
  | .NamedGroupsExt _ => extEllipticCurves
  | .SignatureAlgorithms _ => extSignatureAlgorithms
  | .Heartbeat _ => extHeartbeat
  | .ServerNameReq _ => extServerName
  | .SessionTicketRequest => extSessionTicket
  | .SessionTicketOffer _ => extSessionTicket
  | .Protocols _ => extALProtocolNegotiation
  | .SupportedVersions _ => extSupportedVersions
  | .KeyShare _ => extKeyShare
  | .Unknown r => r.typ

/-- The body bytes of a `ClientExtension` (the `sub` buffer the source
builds before writing the length). -/
def ClientExtension.encodeBody : ClientExtension → Bytes
  | .ECPointFormats r => Codec.encodeVecU8 Codec.encodeU8 r
  | .NamedGroupsExt r => Codec.encodeVecU16 Codec.encodeU16 r
  | .SignatureAlgorithms r => Codec.encodeVecU16 Codec.encodeU16 r
  | .Heartbeat r => Codec.encodeU8 r
  | .ServerNameReq r => Codec.encodeVecU16 ServerName.encode r
  | .SessionTicketRequest => []
  | .SessionTicketOffer r => r
  | .Protocols r => Codec.encodeVecU16 Codec.encodePayloadU8 r
  | .SupportedVersions r => Codec.encodeVecU8 Codec.encodeU16 r
  | .KeyShare r => Codec.encodeVecU16 KeyShareEntry.encode r
  | .Unknown r => r.encode

/-- Rust `ClientExtension::encode`: type, u16 body length, body. -/
def ClientExtension.encode (e : ClientExtension) : Bytes :=
  Codec.encodeU16 e.get_type ++
    Codec.encodeU16 e.encodeBody.length ++ e.encodeBody

/-- Rust `ClientExtension::read`: type, u16 length, then the body parsed from
the length-delimited sub-buffer (surplus sub-buffer bytes are discarded,
as the source does). -/
def ClientExtension.read (bs : Bytes) : Option (ClientExtension × Bytes) := do
  let (typ, bs1) ← Codec.readU16 bs
  let (len, bs2) ← Codec.readU16 bs1
  let (sub, rest) ← Codec.takeBytes len bs2
  let ext ←
    if typ = extECPointFormats then do
      let (r, _) ← Codec.readVecU8 Codec.readU8 sub
      pure (ClientExtension.ECPointFormats r)
    else if typ = extEllipticCurves then do
      let (r, _) ← Codec.readVecU16 Codec.readU16 sub
      pure (ClientExtension.NamedGroupsExt r)
    else if typ = extSignatureAlgorithms then do
      let (r, _) ← Codec.readVecU16 Codec.readU16 sub
      pure (ClientExtension.SignatureAlgorithms r)
    else if typ = extHeartbeat then do
      let (r, _) ← Codec.readU8 sub
      pure (ClientExtension.Heartbeat r)
    else if typ = extServerName then do
      let (r, _) ← Codec.readVecU16 ServerName.read sub
      pure (ClientExtension.ServerNameReq r)
    else if typ = extSessionTicket then
      if sub.length > 0 then do
        let (r, _) ← Codec.readPayloadRest sub
        pure (ClientExtension.SessionTicketOffer r)
      else
        pure ClientExtension.SessionTicketRequest
    else if typ = extALProtocolNegotiation then do
      let (r, _) ← Codec.readVecU16 Codec.readPayloadU8 sub
      pure (ClientExtension.Protocols r)
    else if typ = extSupportedVersions then do
      let (r, _) ← Codec.readVecU8 Codec.readU16 sub
      pure (ClientExtension.SupportedVersions r)
    else if typ = extKeyShare then do
      let (r, _) ← Codec.readVecU16 KeyShareEntry.read sub
      pure (ClientExtension.KeyShare r)
    else do
      let (r, _) ← UnknownExtension.read typ sub
      pure (ClientExtension.Unknown r)
  pure (ext, rest)

/-- Rust `ServerExtension` (src/msgs/handshake.rs lines 500-510). -/
inductive ServerExtension where
  | ECPointFormats (formats : List Nat)
  | Heartbeat (mode : Nat)
  | ServerNameAcknowledgement
  | SessionTicketAcknowledgement
  | RenegotiationInfo (payload : Bytes)
  | Protocols (names : List Bytes)
  | KeyShare (share : KeyShareEntry)
  | Unknown (ext : UnknownExtension)
deriving DecidableEq, Repr

/-- Rust `ServerExtension::get_type`. -/
def ServerExtension.get_type : ServerExtension → Nat
  | .ECPointFormats _ => extECPointFormats
  | .Heartbeat _ => extHeartbeat
  | .ServerNameAcknowledgement => extServerName
  | .SessionTicketAcknowledgement => extSessionTicket
  | .RenegotiationInfo _ => extRenegotiationInfo
  | .Protocols _ => extALProtocolNegotiation
  | .KeyShare _ => extKeyShare
  | .Unknown r => r.typ

/-- The body bytes of a `ServerExtension`. -/
def ServerExtension.encodeBody : ServerExtension → Bytes
  | .ECPointFormats r => Codec.encodeVecU8 Codec.encodeU8 r
  | .Heartbeat r => Codec.encodeU8 r
  | .ServerNameAcknowledgement => []
  | .SessionTicketAcknowledgement => []
  | .RenegotiationInfo r => Codec.encodePayloadU8 r
  | .Protocols r => Codec.encodeVecU16 Codec.encodePayloadU8 r
  | .KeyShare r => r.encode
  | .Unknown r => r.encode

/-- Rust `ServerExtension::encode`: type, u16 body length, body. -/
def ServerExtension.encode (e : ServerExtension) : Bytes :=
  Codec.encodeU16 e.get_type ++
    Codec.encodeU16 e.encodeBody.length ++ e.encodeBody

/-- Rust `ServerExtension::read`. -/
def ServerExtension.read (bs : Bytes) : Option (ServerExtension × Bytes) := do
  let (typ, bs1) ← Codec.readU16 bs
  let (len, bs2) ← Codec.readU16 bs1
  let (sub, rest) ← Codec.takeBytes len bs2
  let ext ←
    if typ = extECPointFormats then do
      let (r, _) ← Codec.readVecU8 Codec.readU8 sub
      pure (ServerExtension.ECPointFormats r)
    else if typ = extHeartbeat then do
      let (r, _) ← Codec.readU8 sub
      pure (ServerExtension.Heartbeat r)
    else if typ = extServerName then
      pure ServerExtension.ServerNameAcknowledgement
    else if typ = extSessionTicket then
      pure ServerExtension.SessionTicketAcknowledgement
    else if typ = extRenegotiationInfo then do
      let (r, _) ← Codec.readPayloadU8 sub
      pure (ServerExtension.RenegotiationInfo r)
    else if typ = extALProtocolNegotiation then do
      let (r, _) ← Codec.readVecU16 Codec.readPayloadU8 sub
      pure (ServerExtension.Protocols r)
    else if typ = extKeyShare then do
      let (r, _) ← KeyShareEntry.read sub
      pure (ServerExtension.KeyShare r)
    else do
      let (r, _) ← UnknownExtension.read typ sub
      pure (ServerExtension.Unknown r)
  pure (ext, rest)

/-- Rust `HelloRetryExtension` (src/msgs/handshake.rs lines 693-698). -/
inductive HelloRetryExtension where
  | KeyShare (group : Nat)
  | Cookie (payload : Bytes)
  | Unknown (ext : UnknownExtension)
deriving DecidableEq, Repr

/-- Rust `HelloRetryExtension::get_type`. -/
def HelloRetryExtension.get_type : HelloRetryExtension → Nat
  | .KeyShare _ => extKeyShare
  | .Cookie _ => extCookie
  | .Unknown r => r.typ

/-- The body bytes (`sub`) a `HelloRetryExtension` computes. -/
def HelloRetryExtension.encodeBody : HelloRetryExtension → Bytes
  | .KeyShare r => Codec.encodeU16 r
  | .Cookie r => Codec.encodePayloadU16 r
  | .Unknown r => r.encode

/-- Rust `HelloRetryExtension::encode` (lines 711-722): writes the type and the
u16 length of the body it computed, but — unlike every other extension
encoder in the file — never appends the body itself. -/
def HelloRetryExtension.encode (e : HelloRetryExtension) : Bytes :=
  Codec.encodeU16 e.get_type ++ Codec.encodeU16 e.encodeBody.length

/-- Rust `HelloRetryExtension::read` (note the source dispatches the Cookie
variant on `ExtensionType::Heartbeat`). -/
def HelloRetryExtension.read (bs : Bytes) :
    Option (HelloRetryExtension × Bytes) := do
  let (typ, bs1) ← Codec.readU16 bs
  let (len, bs2) ← Codec.readU16 bs1
  let (sub, rest) ← Codec.takeBytes len bs2
  let ext ←
    if typ = extKeyShare then do
      let (r, _) ← Codec.readU16 sub
      pure (HelloRetryExtension.KeyShare r)
    else if typ = extHeartbeat then do
      let (r, _) ← Codec.readPayloadU16 sub
      pure (HelloRetryExtension.Cookie r)
    else do
      let (r, _) ← UnknownExtension.read typ sub
      pure (HelloRetryExtension.Unknown r)
  pure (ext, rest)

/-- Rust `HelloRetryRequest` (src/msgs/handshake.rs lines 740-758). -/
structure HelloRetryRequest where
  server_version : Nat
  extensions : List HelloRetryExtension
deriving DecidableEq, Repr

/-- Rust `HelloRetryRequest::encode`. -/
def HelloRetryRequest.encode (h : HelloRetryRequest) : Bytes :=
  Codec.encodeU16 h.server_version ++
    Codec.encodeVecU16 HelloRetryExtension.encode h.extensions

/-- Rust `HelloRetryRequest::read`. -/
def HelloRetryRequest.read (bs : Bytes) : Option (HelloRetryRequest × Bytes) := do
  let (v, bs1) ← Codec.readU16 bs
  let (exts, bs2) ← Codec.readVecU16 HelloRetryExtension.read bs1
  pure ({ server_version := v, extensions := exts }, bs2)

/-- Rust `ClientHelloPayload` (src/msgs/handshake.rs lines 584-592). -/
structure ClientHelloPayload where
  client_version : Nat
  random : Random
  session_id : SessionID
  cipher_suites : List Nat
  compression_methods : List Nat
  extensions : List ClientExtension
deriving DecidableEq, Repr

/-- Rust `ClientHelloPayload::encode`: the extension vector is written only when
non-empty. -/
def ClientHelloPayload.encode (c : ClientHelloPayload) : Bytes :=
  Codec.encodeU16 c.client_version ++ c.random.encode ++
    c.session_id.encode ++
    Codec.encodeVecU16 Codec.encodeU16 c.cipher_suites ++
    Codec.encodeVecU8 Codec.encodeU8 c.compression_methods ++
    (if c.extensions.length > 0 then
      Codec.encodeVecU16 ClientExtension.encode c.extensions
    else [])

/-- Rust `ClientHelloPayload::read`: extensions are parsed only when bytes
remain. -/
def ClientHelloPayload.read (bs : Bytes) : Option (ClientHelloPayload × Bytes) := do
  let (v, bs1) ← Codec.readU16 bs
  let (random, bs2) ← Random.read bs1
  let (sid, bs3) ← SessionID.read bs2
  let (suites, bs4) ← Codec.readVecU16 Codec.readU16 bs3
  let (comps, bs5) ← Codec.readVecU8 Codec.readU8 bs4
  if bs5.length > 0 then do
    let (exts, bs6) ← Codec.readVecU16 ClientExtension.read bs5
    pure ({ client_version := v, random := random, session_id := sid,
            cipher_suites := suites, compression_methods := comps,
            extensions := exts }, bs6)
  else
    pure ({ client_version := v, random := random, session_id := sid,
            cipher_suites := suites, compression_methods := comps,
            extensions := [] }, bs5)

/-- The seen-set loop shared by both `has_duplicate_extension`
implementations (the source HashSet is a set of u16 codes; membership is
the only operation used, so a list models it exactly). -/
def hasDupLoop (seen : List Nat) : List Nat → Bool
  | [] => false
  | t :: rest => if seen.contains t then true else hasDupLoop (t :: seen) rest

/-- Rust `ClientHelloPayload::has_duplicate_extension` (lines 629-642). -/
def ClientHelloPayload.has_duplicate_extension (c : ClientHelloPayload) : Bool :=
  hasDupLoop [] (c.extensions.map ClientExtension.get_type)

/-- Rust `ClientHelloPayload::find_extension`. -/
def ClientHelloPayload.find_extension (c : ClientHelloPayload) (ext : Nat) :
    Option ClientExtension :=
  c.extensions.find? (fun x => x.get_type == ext)

/-- Rust `ClientHelloPayload::get_alpn_extension`. -/
def ClientHelloPayload.get_alpn_extension (c : ClientHelloPayload) :
    Option (List Bytes) :=
  match c.find_extension extALProtocolNegotiation with
  | some (.Protocols req) => some req
  | _ => none

/-- Rust `ClientHelloPayload::get_sni_extension`. -/
def ClientHelloPayload.get_sni_extension (c : ClientHelloPayload) :
    Option (List ServerName) :=
  match c.find_extension extServerName with
  | some (.ServerNameReq req) => some req
  | _ => none

/-- Rust `ClientHelloPayload::get_ticket_extension`. -/
def ClientHelloPayload.get_ticket_extension (c : ClientHelloPayload) :
    Option ClientExtension :=
  c.find_extension extSessionTicket

/-- Rust `is_tls13` (src/msgs/handshake.rs lines 770-773): TLSv1.3 or the
draft-18 code. -/
def is_tls13 (vers : Nat) : Bool := vers == pvTLSv1_3 || vers == pvTLS13Draft

/-- Rust `ServerHelloPayload` (src/msgs/handshake.rs lines 760-768). -/
structure ServerHelloPayload where
  server_version : Nat
  random : Random
  session_id : SessionID
  cipher_suite : Nat
  compression_method : Nat
  extensions : List ServerExtension
deriving DecidableEq, Repr

/-- Rust `ServerHelloPayload::encode`: the TLS 1.3 form omits session id and
compression. -/
def ServerHelloPayload.encode (s : ServerHelloPayload) : Bytes :=
  Codec.encodeU16 s.server_version ++ s.random.encode ++
    (if is_tls13 s.server_version then
      Codec.encodeU16 s.cipher_suite
    else
      s.session_id.encode ++ Codec.encodeU16 s.cipher_suite ++
        Codec.encodeU8 s.compression_method) ++
    (if s.extensions.isEmpty then []
     else Codec.encodeVecU16 ServerExtension.encode s.extensions)

/-- Rust `ServerHelloPayload::read`. -/
def ServerHelloPayload.read (bs : Bytes) : Option (ServerHelloPayload × Bytes) := do
  let (v, bs1) ← Codec.readU16 bs
  let (random, bs2) ← Random.read bs1
  let (sid, suite, comp, bs3) ←
    if is_tls13 v then do
      let (suite, bs3) ← Codec.readU16 bs2
      pure (SessionID.empty, suite, compressionNull, bs3)
    else do
      let (sid, bsa) ← SessionID.read bs2
      let (suite, bsb) ← Codec.readU16 bsa
      let (comp, bsc) ← Codec.readU8 bsb
      pure (sid, suite, comp, bsc)
  if bs3.length > 0 then do
    let (exts, bs4) ← Codec.readVecU16 ServerExtension.read bs3
    pure ({ server_version := v, random := random, session_id := sid,
            cipher_suite := suite, compression_method := comp,
            extensions := exts }, bs4)
  else
    pure ({ server_version := v, random := random, session_id := sid,
            cipher_suite := suite, compression_method := comp,
            extensions := [] }, bs3)

/-- Rust `ServerHelloPayload::has_duplicate_extension` (lines 827-840). -/
def ServerHelloPayload.has_duplicate_extension (s : ServerHelloPayload) : Bool :=
  hasDupLoop [] (s.extensions.map ServerExtension.get_type)

/-- Rust `ServerHelloPayload::find_extension`. -/
def ServerHelloPayload.find_extension (s : ServerHelloPayload) (ext : Nat) :
    Option ServerExtension :=
  s.extensions.find? (fun x => x.get_type == ext)

/-- Rust `ServerHelloPayload::get_key_share`. -/
def ServerHelloPayload.get_key_share (s : ServerHelloPayload) :
    Option KeyShareEntry :=
  match s.find_extension extKeyShare with
  | some (.KeyShare share) => some share
  | _ => none

/-- Rust `CertificatePayload` = `Vec<ASN1Cert>`: u24 list of u24-prefixed
certificates. -/
def encodeCertificatePayload (certs : List Bytes) : Bytes :=
  Codec.encodeVecU24 Codec.encodePayloadU24 certs

/-- Read a classic `CertificatePayload`. -/
def readCertificatePayload (bs : Bytes) : Option (List Bytes × Bytes) :=
  Codec.readVecU24 Codec.readPayloadU24 bs

/-- Rust `CertificateExtension` (only the Unknown arm exists). -/
structure CertificateExtension where
  ext : UnknownExtension
deriving DecidableEq, Repr

/-- Rust `CertificateExtension::encode`. -/
def CertificateExtension.encode (c : CertificateExtension) : Bytes :=
  Codec.encodeU16 c.ext.typ ++
    Codec.encodeU16 c.ext.encode.length ++ c.ext.encode

/-- Rust `CertificateExtension::read`. -/
def CertificateExtension.read (bs : Bytes) :
    Option (CertificateExtension × Bytes) := do
  let (typ, bs1) ← Codec.readU16 bs
  let (len, bs2) ← Codec.readU16 bs1
  let (sub, rest) ← Codec.takeBytes len bs2
  let (r, _) ← UnknownExtension.read typ sub
  pure ({ ext := r }, rest)

/-- Rust `CertificateEntry` (TLS 1.3): cert plus extensions. -/
structure CertificateEntry where
  cert : Bytes
  exts : List CertificateExtension
deriving DecidableEq, Repr

/-- Rust `CertificateEntry::encode`. -/
def CertificateEntry.encode (c : CertificateEntry) : Bytes :=
  Codec.encodePayloadU24 c.cert ++
    Codec.encodeVecU16 CertificateExtension.encode c.exts

/-- Rust `CertificateEntry::read`. -/
def CertificateEntry.read (bs : Bytes) : Option (CertificateEntry × Bytes) := do
  let (cert, bs1) ← Codec.readPayloadU24 bs
  let (exts, bs2) ← Codec.readVecU16 CertificateExtension.read bs1
  pure ({ cert := cert, exts := exts }, bs2)

/-- Rust `CertificatePayloadTLS13` (src/msgs/handshake.rs lines 940-958). -/
structure CertificatePayloadTLS13 where
  request_context : Bytes
  list : List CertificateEntry
deriving DecidableEq, Repr

/-- Rust `CertificatePayloadTLS13::encode`. -/
def CertificatePayloadTLS13.encode (c : CertificatePayloadTLS13) : Bytes :=
  Codec.encodePayloadU8 c.request_context ++
    Codec.encodeVecU24 CertificateEntry.encode c.list

/-- Rust `CertificatePayloadTLS13::read`. -/
def CertificatePayloadTLS13.read (bs : Bytes) :
    Option (CertificatePayloadTLS13 × Bytes) := do
  let (ctx, bs1) ← Codec.readPayloadU8 bs
  let (list, bs2) ← Codec.readVecU24 CertificateEntry.read bs1
  pure ({ request_context := ctx, list := list }, bs2)

/-- Rust `CertificatePayloadTLS13::convert`. -/
def CertificatePayloadTLS13.convert (c : CertificatePayloadTLS13) : List Bytes :=
  c.list.map CertificateEntry.cert

/-- Rust `DigitallySignedStruct`: scheme code and u16-prefixed signature. -/
structure DigitallySignedStruct where
  scheme : Nat
  sig : Bytes
deriving DecidableEq, Repr

/-- Rust `DigitallySignedStruct::encode`. -/
def DigitallySignedStruct.encode (d : DigitallySignedStruct) : Bytes :=
  Codec.encodeU16 d.scheme ++ Codec.encodePayloadU16 d.sig

/-- Rust `DigitallySignedStruct::read`. -/
def DigitallySignedStruct.read (bs : Bytes) :
    Option (DigitallySignedStruct × Bytes) := do
  let (scheme, bs1) ← Codec.readU16 bs
  let (sig, bs2) ← Codec.readPayloadU16 bs1
  pure ({ scheme := scheme, sig := sig }, bs2)

/-- Rust `ECParameters`: curve type byte and named group. -/
structure ECParameters where
  curve_type : Nat
  named_group : Nat
deriving DecidableEq, Repr

/-- Rust `ECParameters::encode`. -/
def ECParameters.encode (p : ECParameters) : Bytes :=
  Codec.encodeU8 p.curve_type ++ Codec.encodeU16 p.named_group

/-- Rust `ECParameters::read`: rejects curve types other than NamedCurve. -/
def ECParameters.read (bs : Bytes) : Option (ECParameters × Bytes) := do
  let (ct, bs1) ← Codec.readU8 bs
  if ct ≠ ectNamedCurve then none
  else do
    let (grp, bs2) ← Codec.readU16 bs1
    pure ({ curve_type := ct, named_group := grp }, bs2)

/-- Rust `ServerECDHParams`: curve parameters and u8-prefixed public point. -/
structure ServerECDHParams where
  curve_params : ECParameters
  public : Bytes
deriving DecidableEq, Repr

/-- Rust `ServerECDHParams::new`. -/
def ServerECDHParams.new (named_group : Nat) (pubkey : Bytes) : ServerECDHParams :=
  { curve_params := { curve_type := ectNamedCurve, named_group := named_group },
    public := pubkey }

/-- Rust `ServerECDHParams::encode`. -/
def ServerECDHParams.encode (p : ServerECDHParams) : Bytes :=
  p.curve_params.encode ++ Codec.encodePayloadU8 p.public

/-- Rust `ServerECDHParams::read`. -/
def ServerECDHParams.read (bs : Bytes) : Option (ServerECDHParams × Bytes) := do
  let (cp, bs1) ← ECParameters.read bs
  let (pb, bs2) ← Codec.readPayloadU8 bs1
  pure ({ curve_params := cp, public := pb }, bs2)

/-- Rust `ECDHEServerKeyExchange`: params plus signature. -/
structure ECDHEServerKeyExchange where
  params : ServerECDHParams
  dss : DigitallySignedStruct
deriving DecidableEq, Repr

/-- Rust `ECDHEServerKeyExchange::encode`. -/
def ECDHEServerKeyExchange.encode (k : ECDHEServerKeyExchange) : Bytes :=
  k.params.encode ++ k.dss.encode

/-- Rust `ECDHEServerKeyExchange::read`. -/
def ECDHEServerKeyExchange.read (bs : Bytes) :
    Option (ECDHEServerKeyExchange × Bytes) := do
  let (params, bs1) ← ServerECDHParams.read bs
  let (dss, bs2) ← DigitallySignedStruct.read bs1
  pure ({ params := params, dss := dss }, bs2)

/-- Rust `ServerKeyExchangePayload`. -/
inductive ServerKeyExchangePayload where
  | ECDHE (kx : ECDHEServerKeyExchange)
  | Unknown (payload : Bytes)
deriving DecidableEq, Repr

/-- Rust `ServerKeyExchangePayload::encode`. -/
def ServerKeyExchangePayload.encode : ServerKeyExchangePayload → Bytes
  | .ECDHE x => x.encode
  | .Unknown x => x

/-- Rust `ServerKeyExchangePayload::read`: reads opaquely; full parsing waits
for the key exchange algorithm. -/
def ServerKeyExchangePayload.read (bs : Bytes) :
    Option (ServerKeyExchangePayload × Bytes) := do
  let (x, rest) ← Codec.readPayloadRest bs
  pure (ServerKeyExchangePayload.Unknown x, rest)

/-- Rust `CertificateRequestPayload`. -/
structure CertificateRequestPayload where
  certtypes : List Nat
  sigschemes : List Nat
  canames : List Bytes
deriving DecidableEq, Repr

/-- Rust `CertificateRequestPayload::encode`. -/
def CertificateRequestPayload.encode (c : CertificateRequestPayload) : Bytes :=
  Codec.encodeVecU8 Codec.encodeU8 c.certtypes ++
    Codec.encodeVecU16 Codec.encodeU16 c.sigschemes ++
    Codec.encodeVecU16 Codec.encodePayloadU16 c.canames

/-- Rust `CertificateRequestPayload::read`. -/
def CertificateRequestPayload.read (bs : Bytes) :
    Option (CertificateRequestPayload × Bytes) := do
  let (certtypes, bs1) ← Codec.readVecU8 Codec.readU8 bs
  let (sigschemes, bs2) ← Codec.readVecU16 Codec.readU16 bs1
  let (canames, bs3) ← Codec.readVecU16 Codec.readPayloadU16 bs2
  pure ({ certtypes := certtypes, sigschemes := sigschemes,
          canames := canames }, bs3)

/-- Rust `NewSessionTicketPayload` (classic). -/
structure NewSessionTicketPayload where
  lifetime_hint : Nat
  ticket : Bytes
deriving DecidableEq, Repr

/-- Rust `NewSessionTicketPayload::new`. -/
def NewSessionTicketPayload.new (lifetime_hint : Nat) (ticket : Bytes) :
    NewSessionTicketPayload :=
  { lifetime_hint := lifetime_hint, ticket := ticket }

/-- Rust `NewSessionTicketPayload::encode`. -/
def NewSessionTicketPayload.encode (t : NewSessionTicketPayload) : Bytes :=
  Codec.encodeU32 t.lifetime_hint ++ Codec.encodePayloadU16 t.ticket

/-- Rust `NewSessionTicketPayload::read`. -/
def NewSessionTicketPayload.read (bs : Bytes) :
    Option (NewSessionTicketPayload × Bytes) := do
  let (lifetime, bs1) ← Codec.readU32 bs
  let (ticket, bs2) ← Codec.readPayloadU16 bs1
  pure ({ lifetime_hint := lifetime, ticket := ticket }, bs2)

/-- Rust `NewSessionTicketExtension` (only Unknown). -/
structure NewSessionTicketExtension where
  ext : UnknownExtension
deriving DecidableEq, Repr

/-- Rust `NewSessionTicketExtension::encode`. -/
def NewSessionTicketExtension.encode (c : NewSessionTicketExtension) : Bytes :=
  Codec.encodeU16 c.ext.typ ++
    Codec.encodeU16 c.ext.encode.length ++ c.ext.encode

/-- Rust `NewSessionTicketExtension::read`. -/
def NewSessionTicketExtension.read (bs : Bytes) :
    Option (NewSessionTicketExtension × Bytes) := do
  let (typ, bs1) ← Codec.readU16 bs
  let (len, bs2) ← Codec.readU16 bs1
  let (sub, rest) ← Codec.takeBytes len bs2
  let (r, _) ← UnknownExtension.read typ sub
  pure ({ ext := r }, rest)

/-- Rust `NewSessionTicketPayloadTLS13`. -/
structure NewSessionTicketPayloadTLS13 where
  lifetime : Nat
  age_add : Nat
  ticket : Bytes
  exts : List NewSessionTicketExtension
deriving DecidableEq, Repr

/-- Rust `NewSessionTicketPayloadTLS13::encode`. -/
def NewSessionTicketPayloadTLS13.encode (t : NewSessionTicketPayloadTLS13) : Bytes :=
  Codec.encodeU32 t.lifetime ++ Codec.encodeU32 t.age_add ++
    Codec.encodePayloadU16 t.ticket ++
    Codec.encodeVecU16 NewSessionTicketExtension.encode t.exts

/-- Rust `NewSessionTicketPayloadTLS13::read`. -/
def NewSessionTicketPayloadTLS13.read (bs : Bytes) :
    Option (NewSessionTicketPayloadTLS13 × Bytes) := do
  let (lifetime, bs1) ← Codec.readU32 bs
  let (age_add, bs2) ← Codec.readU32 bs1
  let (ticket, bs3) ← Codec.readPayloadU16 bs2
  let (exts, bs4) ← Codec.readVecU16 NewSessionTicketExtension.read bs3
  pure ({ lifetime := lifetime, age_add := age_add, ticket := ticket,
          exts := exts }, bs4)

/-- Rust `HandshakePayload` (src/msgs/handshake.rs lines 1295-1314). -/
inductive HandshakePayload where
  | HelloRequest
  | ClientHello (p : ClientHelloPayload)
  | ServerHello (p : ServerHelloPayload)
  | HelloRetryRequest (p : HelloRetryRequest)
  | Certificate (p : List Bytes)
  | CertificateTLS13 (p : CertificatePayloadTLS13)
  | ServerKeyExchange (p : ServerKeyExchangePayload)
  | CertificateRequest (p : CertificateRequestPayload)
  | CertificateVerify (p : DigitallySignedStruct)
  | ServerHelloDone
  | ClientKeyExchange (p : Bytes)
  | NewSessionTicket (p : NewSessionTicketPayload)
  | NewSessionTicketTLS13 (p : NewSessionTicketPayloadTLS13)
  | EncryptedExtensions (p : List ServerExtension)
  | KeyUpdate (p : Nat)
  | Finished (p : Bytes)
  | Unknown (p : Bytes)
deriving DecidableEq, Repr

/-- Rust `HandshakePayload::encode`. -/
def HandshakePayload.encode : HandshakePayload → Bytes
  | .HelloRequest => []
  | .ClientHello x => x.encode
  | .ServerHello x => x.encode
  | .HelloRetryRequest x => x.encode
  | .Certificate x => encodeCertificatePayload x
  | .CertificateTLS13 x => x.encode
  | .ServerKeyExchange x => x.encode
  | .ServerHelloDone => []
  | .ClientKeyExchange x => x
  | .CertificateRequest x => x.encode
  | .CertificateVerify x => x.encode
  | .NewSessionTicket x => x.encode
  | .NewSessionTicketTLS13 x => x.encode
  | .EncryptedExtensions x => Codec.encodeVecU16 ServerExtension.encode x
  | .KeyUpdate x => Codec.encodeU8 x
  | .Finished x => x
  | .Unknown x => x

/-- Rust `HandshakeMessagePayload` (src/msgs/handshake.rs lines 1340-1344). -/
structure HandshakeMessagePayload where
  typ : Nat
  payload : HandshakePayload
deriving DecidableEq, Repr

/-- Rust `HandshakeMessagePayload::encode`: type, u24 payload length, payload. -/
def HandshakeMessagePayload.encode (m : HandshakeMessagePayload) : Bytes :=
  Codec.encodeU8 m.typ ++
    Codec.encodeU24 m.payload.encode.length ++ m.payload.encode

/-- The version-sensitive body dispatch of
`HandshakeMessagePayload::read_version` (lines 1370-1413), on the
length-delimited sub-buffer.  The arm order and the guard conditions
mirror the source match exactly; the two `vers` tests are the source's
`vers == ProtocolVersion::TLSv1_3` comparisons. -/
def readPayloadOfType (typ vers : Nat) (sub : Bytes) : Option HandshakePayload :=
  if typ = htHelloRequest ∧ sub.length = 0 then
    some HandshakePayload.HelloRequest
  else if typ = htClientHello then do
    let (x, _) ← ClientHelloPayload.read sub
    pure (HandshakePayload.ClientHello x)
  else if typ = htServerHello then do
    let (x, _) ← ServerHelloPayload.read sub
    pure (HandshakePayload.ServerHello x)
  else if typ = htHelloRetryRequest then do
    let (x, _) ← HelloRetryRequest.read sub
    pure (HandshakePayload.HelloRetryRequest x)
  else if typ = htCertificate ∧ vers = pvTLSv1_3 then do
    let (x, _) ← CertificatePayloadTLS13.read sub
    pure (HandshakePayload.CertificateTLS13 x)
  else if typ = htCertificate then do
    let (x, _) ← readCertificatePayload sub
    pure (HandshakePayload.Certificate x)
  else if typ = htServerKeyExchange then do
    let (x, _) ← ServerKeyExchangePayload.read sub
    pure (HandshakePayload.ServerKeyExchange x)
  else if typ = htServerHelloDone ∧ sub.length = 0 then
    some HandshakePayload.ServerHelloDone
  else if typ = htClientKeyExchange then do
    let (x, _) ← Codec.readPayloadRest sub
    pure (HandshakePayload.ClientKeyExchange x)
  else if typ = htCertificateRequest then do
    let (x, _) ← CertificateRequestPayload.read sub
    pure (HandshakePayload.CertificateRequest x)
  else if typ = htCertificateVerify then do
    let (x, _) ← DigitallySignedStruct.read sub
    pure (HandshakePayload.CertificateVerify x)
  else if typ = htNewSessionTicket ∧ vers = pvTLSv1_3 then do
    let (x, _) ← NewSessionTicketPayloadTLS13.read sub
    pure (HandshakePayload.NewSessionTicketTLS13 x)
  else if typ = htNewSessionTicket then do
    let (x, _) ← NewSessionTicketPayload.read sub
    pure (HandshakePayload.NewSessionTicket x)
  else if typ = htEncryptedExtensions then do
    let (x, _) ← Codec.readVecU16 ServerExtension.read sub
    pure (HandshakePayload.EncryptedExtensions x)
  else if typ = htKeyUpdate then do
    let (x, _) ← Codec.readU8 sub
    pure (HandshakePayload.KeyUpdate x)
  else if typ = htFinished then do
    let (x, _) ← Codec.readPayloadRest sub
    pure (HandshakePayload.Finished x)
  else do
    let (x, _) ← Codec.readPayloadRest sub
    pure (HandshakePayload.Unknown x)

/-- Rust `HandshakeMessagePayload::read_version`: type, u24 length, body parsed
from the sub-buffer with the given protocol version. -/
def HandshakeMessagePayload.read_version (bs : Bytes) (vers : Nat) :
    Option (HandshakeMessagePayload × Bytes) := do
  let (typ, bs1) ← Codec.readU8 bs
  let (len, bs2) ← Codec.readU24 bs1
  let (sub, rest) ← Codec.takeBytes len bs2
  let payload ← readPayloadOfType typ vers sub
  pure ({ typ := typ, payload := payload }, rest)

/-- Rust `Codec::read` for `HandshakeMessagePayload`: parse at TLSv1.2. -/
def HandshakeMessagePayload.read (bs : Bytes) :
    Option (HandshakeMessagePayload × Bytes) :=
  HandshakeMessagePayload.read_version bs pvTLSv1_2

/-- Rust `NamedGroups::supported` (src/msgs/handshake.rs lines 158-162). -/
def namedGroupsSupported : List Nat := [ngX25519, ngSecp384r1, ngSecp256r1]

/-- Rust `ECPointFormatList::supported` (lines 146-150). -/
def ecPointFormatsSupported : List Nat := [epfUncompressed]

/-- Rust `KeyExchangeAlgorithm` (src/msgs/handshake.rs lines 970-978). -/
inductive KeyExchangeAlgorithm where
  | BulkOnly
  | DH
  | DHE
  | RSA
  | ECDH
  | ECDHE
deriving DecidableEq, Repr

/-- Rust `BulkAlgorithm` (src/suites.rs lines 13-18). -/
inductive BulkAlgorithm where
  | AES_128_GCM
  | AES_256_GCM
  | CHACHA20_POLY1305
deriving DecidableEq, Repr

/-- Rust `SupportedCipherSuite` (src/suites.rs lines 100-116).  `suite`, `hash`
and `sign` are the `Nat` codes of the respective enumerations.  The source
`PartialEq` compares only `suite`; the selection functions below compare
`suite` ids explicitly, so full structural equality is safe here. -/
structure SupportedCipherSuite where
  suite : Nat
  kx : KeyExchangeAlgorithm
  bulk : BulkAlgorithm
  hash : Nat
  sign : Nat
  enc_key_len : Nat
  fixed_iv_len : Nat
  explicit_nonce_len : Nat
deriving DecidableEq, Repr

/-- Rust `SupportedCipherSuite::key_block_len` (src/suites.rs lines 180-182). -/
def SupportedCipherSuite.key_block_len (s : SupportedCipherSuite) : Nat :=
  (s.enc_key_len + s.fixed_iv_len) * 2 + s.explicit_nonce_len

/-- Rust `choose_ciphersuite_preferring_client` (src/suites.rs lines 310-320):
walk the client's list in order and return the first server entry whose
suite id matches. -/
def choose_ciphersuite_preferring_client :
    List Nat → List SupportedCipherSuite → Option SupportedCipherSuite
  | [], _ => none
  | c :: rest, server_suites =>
    match server_suites.find? (fun x => c == x.suite) with
    | some selected => some selected
    | none => choose_ciphersuite_preferring_client rest server_suites

/-- Rust `choose_ciphersuite_preferring_server` (src/suites.rs lines 322-330):
the first server entry whose suite id the client offered. -/
def choose_ciphersuite_preferring_server
    (client_suites : List Nat) (server_suites : List SupportedCipherSuite) :
    Option SupportedCipherSuite :=
  server_suites.find? (fun x => client_suites.contains x.suite)

/-- Rust `SignatureAlgorithm::Anonymous` u8 code. -/
def signAnonymous : Nat := 0

/-- Rust `reduce_given_sigalg` (src/suites.rs lines 334-340). -/
def reduce_given_sigalg (all : List SupportedCipherSuite) (sigalg : Nat) :
    List SupportedCipherSuite :=
  all.filter (fun suite => suite.sign == signAnonymous || suite.sign == sigalg)

/-- An in-progress key exchange (`KeyExchange`, src/suites.rs lines 29-34).
The ring private key is opaque external state, held as bytes. -/
structure KeyExchange where
  group : Nat
  pubkey : Bytes
  privkey : Bytes
deriving DecidableEq, Repr

/-- Modelled from the spec: the missing enums.rs `ContentType` (§6). -/
inductive ContentType where
  | ChangeCipherSpec
  | Alert
  | Handshake
  | ApplicationData
deriving DecidableEq, Repr

/-- Modelled from the spec: the missing enums.rs `AlertDescription` values
the provided sources emit (§6). -/
inductive AlertDescription where
  | HandshakeFailure
  | IllegalParameter
  | DecodeError
  | MissingExtension
  | UnsupportedExtension
  | AccessDenied
  | ProtocolVersion
  | DecryptError
deriving DecidableEq, Repr

/-- Modelled from the spec: the missing error.rs `TLSError` taxonomy (§7). -/
inductive TLSError where
  | InappropriateMessage (expect_types : List ContentType) (got_type : ContentType)
  | PeerMisbehavedError (reason : String)
  | PeerIncompatibleError (reason : String)
  | AlertReceived (description : AlertDescription)
  | DecryptError
  | General (reason : String)
deriving DecidableEq, Repr

/-- Modelled from the spec: the missing client.rs `ConnState` (§4.8), with
the states named in src/client_hs.rs. -/
inductive ClientConnState where
  | ExpectServerHello
  | ExpectEncryptedExtensions
  | ExpectCertificate
  | ExpectCertificateVerify
  | ExpectServerKX
  | ExpectServerHelloDoneOrCertRequest
  | ExpectServerHelloDone
  | ExpectNewTicket
  | ExpectCCS
  | ExpectNewTicketResume
  | ExpectCCSResume
  | ExpectFinished
  | ExpectFinishedResume
  | TrafficTLS12
  | TrafficTLS13
deriving DecidableEq, Repr

/-- Modelled from the spec: the missing server.rs `ConnState` (§4.9), with
the states named in src/server_hs.rs. -/
inductive ServerConnState where
  | ExpectClientHello
  | ExpectCertificate
  | ExpectClientKX
  | ExpectCertificateVerify
  | ExpectCCS
  | ExpectFinished
  | ExpectFinishedTLS13
  | Traffic
deriving DecidableEq, Repr

/-- Modelled from the spec: the randoms pair of the handshake scratch (§3). -/
structure SessionRandoms where
  client : Bytes
  server : Bytes
deriving DecidableEq, Repr

/-- Modelled from the spec: the missing session.rs `SessionSecrets` — per §3
its fields are the master secret, the randoms and the PRF hash. -/
structure SessionSecrets where
  randoms : SessionRandoms
  hashalg : Nat
  master_secret : Bytes
deriving DecidableEq, Repr

/-- Modelled from the spec: `SessionSecrets::new_resume` (session.rs, not
under src/) — §4.3: resumed sessions skip master derivation, the master
secret is supplied externally and stored as-is. -/
def SessionSecrets.new_resume (randoms : SessionRandoms) (hashalg : Nat)
    (master : Bytes) : SessionSecrets :=
  { randoms := randoms, hashalg := hashalg, master_secret := master }

/-- Modelled from the spec: `persist::ClientSessionValue` (persist.rs, not
under src/) — §4.10: `{ suite, session_id, ticket, master_secret }`. -/
structure ClientSessionValue where
  cipher_suite : Nat
  session_id : SessionID
  ticket : Bytes
  master_secret : Bytes
deriving DecidableEq, Repr

/-- Modelled from the spec: `persist::ServerSessionValue` (persist.rs, not
under src/) — §4.10: `{ suite, master_secret, client_cert_chain? }`. -/
structure ServerSessionValue where
  cipher_suite : Nat
  master_secret : Bytes
  client_cert_chain : Option (List Bytes)
deriving DecidableEq, Repr

/-- Modelled from the spec: `util::first_in_both` (util.rs, not under
src/) — per its uses in §4.5/§4.9, the first element of the first list
that also occurs in the second. -/
def firstInBoth {α : Type} [BEq α] (a b : List α) : Option α :=
  a.find? (fun x => b.contains x)

/-- Rust `Random::from_slice` on a 32-byte buffer (the only buffers the
sources pass); the internal `unwrap` cannot fail there. -/
def Random.from_slice (bs : Bytes) : Random :=
  { gmt_unix_time :=
      bs.getD 0 0 * 16777216 + bs.getD 1 0 * 65536 +
        bs.getD 2 0 * 256 + bs.getD 3 0,
    tail28 := (bs.drop 4).take 28 }

/-- Rust `ProtocolNameList::to_strings` (src/msgs/handshake.rs lines 339-348):
keep the entries that are valid UTF-8 (represented by their bytes). -/
def protocolsToStrings (names : List Bytes) : List Bytes :=
  names.filter validUtf8

/-- Rust `CipherSuite::TLS_EMPTY_RENEGOTIATION_INFO_SCSV` u16 code. -/
def scsvRenegotiationInfo : Nat := 0x00ff

/-- Modelled from the spec: the missing server.rs `ServerConfig` fields the
handlers below read (§6); `gen_session_id` is the value
`session_storage.generate()` returns when called. -/
structure ServerConfigModel where
  alpn_protocols : List Bytes
  ticketer_enabled : Bool
  gen_session_id : SessionID
deriving DecidableEq, Repr

/-- Modelled from the spec: the missing server.rs `ServerSessionImpl`
handshake-scratch fields the handlers below touch (§3). -/
structure ServerHsState where
  suite : SupportedCipherSuite
  is_tls13 : Bool
  randoms : SessionRandoms
  session_id : SessionID
  send_ticket : Bool
  doing_resume : Bool
  secrets : Option SessionSecrets
  valid_client_cert_chain : Option (List Bytes)
  alpn_protocol : Option Bytes
deriving DecidableEq, Repr

/-- Rust `process_extensions` (src/server_hs.rs lines 57-108): ALPN selection
(rejecting an offered empty protocol), SNI acknowledgement, and — when not
TLS 1.3 — renegotiation-info echo and session-ticket acknowledgement.
Returns the updated state and the extensions to send. -/
def process_extensions (config : ServerConfigModel) (st : ServerHsState)
    (hello : ClientHelloPayload) :
    Except TLSError (ServerHsState × List ServerExtension) :=
  let withAlpn : Except TLSError (ServerHsState × List ServerExtension) :=
    match hello.get_alpn_extension with
    | some their_protocols =>
      let their_proto_strings := protocolsToStrings their_protocols
      if their_proto_strings.contains [] then
        .error (.PeerMisbehavedError "client offered empty ALPN protocol")
      else
        let chosen := firstInBoth config.alpn_protocols their_proto_strings
        let exts := match chosen with
          | some selected => [ServerExtension.Protocols [selected]]
          | none => []
        .ok ({ st with alpn_protocol := chosen }, exts)
    | none => .ok (st, [])
  match withAlpn with
  | .error e => .error e
  | .ok (st1, ret1) =>
    let ret2 := ret1 ++
      (if (hello.get_sni_extension).isSome then
        [ServerExtension.ServerNameAcknowledgement]
      else [])
    if st1.is_tls13 then .ok (st1, ret2)
    else
      let secure_reneg_offered :=
        (hello.find_extension extRenegotiationInfo).isSome ||
          hello.cipher_suites.contains scsvRenegotiationInfo
      let ret3 := ret2 ++
        (if secure_reneg_offered then
          [ServerExtension.RenegotiationInfo []]
        else [])
      if (hello.find_extension extSessionTicket).isSome &&
          config.ticketer_enabled then
        .ok ({ st1 with send_ticket := true },
             ret3 ++ [ServerExtension.SessionTicketAcknowledgement])
      else
        .ok (st1, ret3)

/-- Rust `emit_server_hello` (src/server_hs.rs lines 110-143): run
`process_extensions`, generate a session id when none is set, and build
the TLS 1.2 ServerHello. -/
def emit_server_hello (config : ServerConfigModel) (st : ServerHsState)
    (hello : ClientHelloPayload) :
    Except TLSError (ServerHsState × ServerHelloPayload) :=
  match process_extensions config st hello with
  | .error e => .error e
  | .ok (st1, extensions) =>
    let st2 :=
      if st1.session_id.is_empty then
        { st1 with session_id := config.gen_session_id }
      else st1
    let sh : ServerHelloPayload :=
      { server_version := pvTLSv1_2,
        random := Random.from_slice st2.randoms.server,
        session_id := st2.session_id,
        cipher_suite := st2.suite.suite,
        compression_method := compressionNull,
        extensions := extensions }
    .ok (st2, sh)

/-- Rust `start_resumption` (src/server_hs.rs lines 260-287): reject when the
resumed suite differs from the just-chosen suite; otherwise install the
resumed master secret via `SessionSecrets::new_resume`, record the resumed
client certificate chain, mark the resume, and answer with the abbreviated
server flight. -/
def start_resumption (config : ServerConfigModel) (st : ServerHsState)
    (client_hello : ClientHelloPayload) (id : SessionID)
    (resumedata : ServerSessionValue) :
    ServerHsState × Except TLSError ServerConnState :=
  if st.suite.suite ≠ resumedata.cipher_suite then
    (st, .error (.PeerMisbehavedError "client varied ciphersuite over resumption"))
  else
    match emit_server_hello config { st with session_id := id } client_hello with
    | .error e => ({ st with session_id := id }, .error e)
    | .ok (st2, _sh) =>
      ({ st2 with
        secrets := some (SessionSecrets.new_resume st2.randoms st2.suite.hash
          resumedata.master_secret),
        valid_client_cert_chain := resumedata.client_cert_chain,
        doing_resume := true },
       .ok ServerConnState.ExpectCCS)

/-- The validation preamble of `handle_client_hello` (src/server_hs.rs
lines 514-530), in source order: protocol version, Null compression,
duplicate extensions.  `none` means the handler proceeds past these
checks; `some (a, e)` means it sends fatal alert `a` and returns `e`. -/
def server_client_hello_checks (ch : ClientHelloPayload) :
    Option (AlertDescription × TLSError) :=
  if ch.client_version < pvTLSv1_2 then
    some (.ProtocolVersion, .PeerIncompatibleError "client does not support TLSv1_2")
  else if !(ch.compression_methods.contains compressionNull) then
    some (.IllegalParameter, .PeerIncompatibleError "client did not offer Null compression")
  else if ch.has_duplicate_extension then
    some (.DecodeError, .PeerMisbehavedError "client sent duplicate extensions")
  else none

/-- The validation preamble of the client's `handle_server_hello`
(src/client_hs.rs lines 228-249), in source order: version match,
Null compression, duplicate extensions. -/
def client_server_hello_checks (sh : ServerHelloPayload) :
    Option (AlertDescription × TLSError) :=
  if sh.server_version = pvTLSv1_2 ∨ sh.server_version = pvTLSv1_3 ∨
      sh.server_version = pvTLS13Draft then
    if sh.compression_method ≠ compressionNull then
      some (.HandshakeFailure, .PeerMisbehavedError "server chose non-Null compression")
    else if sh.has_duplicate_extension then
      some (.DecodeError, .PeerMisbehavedError "server sent duplicate extensions")
    else none
  else
    some (.HandshakeFailure, .PeerIncompatibleError "server does not support TLS v1.2/v1.3")

/-- The resumption decision of the client's `handle_server_hello`
(src/client_hs.rs lines 300-329): when the ServerHello echoes the resuming
session id, a varied suite is a `PeerMisbehavedError`; otherwise the cached
master secret is installed via `SessionSecrets::new_resume` and the
abbreviated-handshake state is entered. -/
def client_see_resumption (resuming : Option ClientSessionValue)
    (session_id : SessionID) (scs : SupportedCipherSuite)
    (randoms : SessionRandoms) (must_issue_new_ticket : Bool) :
    Except TLSError (Option SessionSecrets × ClientConnState) :=
  match resuming with
  | some r =>
    if r.session_id = session_id then
      if r.cipher_suite ≠ scs.suite then
        .error (.PeerMisbehavedError "abbreviated handshake offered, but with varied cs")
      else
        .ok (some (SessionSecrets.new_resume randoms scs.hash r.master_secret),
             if must_issue_new_ticket then ClientConnState.ExpectNewTicketResume
             else ClientConnState.ExpectCCSResume)
    else .ok (none, ClientConnState.ExpectCertificate)
  | none => .ok (none, ClientConnState.ExpectCertificate)

/-- Rust `randomise_sessionid_for_ticket` (src/client_hs.rs lines 74-80):
with a non-empty cached ticket, replace the session id by 16 fresh random
bytes (`random_id` is the `rand::fill_random` output). -/
def randomise_sessionid_for_ticket (random_id : Bytes)
    (csv : ClientSessionValue) : ClientSessionValue :=
  if csv.ticket.length > 0 then
    { csv with session_id := SessionID.new random_id }
  else csv

/-- The session-id/ticket selection of `emit_client_hello`
(src/client_hs.rs lines 82-93). -/
def emit_client_hello_session_id (random_id : Bytes)
    (resuming : Option ClientSessionValue) : SessionID × Bytes :=
  match resuming with
  | some csv =>
    let r := randomise_sessionid_for_ticket random_id csv
    (r.session_id, r.ticket)
  | none => (SessionID.empty, [])

/-- The key-share generation loop of `emit_client_hello`
(src/client_hs.rs lines 100-108): one share per supported group for which
`KeyExchange::start_ecdhe` (external ring crypto, passed as `start_ecdhe`)
succeeds, appended to `offered_key_shares` in group order. -/
def emit_client_hello_key_shares (start_ecdhe : Nat → Option KeyExchange) :
    List KeyExchange :=
  namedGroupsSupported.filterMap start_ecdhe

/-- Rust `find_key_share` (src/client_hs.rs lines 177-189): pop shares from the
front until one matches the group; on a match clear the remainder and
return it, otherwise send a fatal IllegalParameter alert and fail.
Returns the final `offered_key_shares` list alongside the result. -/
def find_key_share (group : Nat) :
    List KeyExchange → List KeyExchange × Except (AlertDescription × TLSError) KeyExchange
  | [] =>
    ([], .error (.IllegalParameter, .PeerMisbehavedError "wrong group for key share"))
  | share :: rest =>
    if share.group = group then ([], .ok share)
    else find_key_share group rest

/-- The client's `handle_ccs` (src/client_hs.rs lines 689-703): a CCS
interleaved with a fragmented handshake message is fatal; otherwise
`peer_now_encrypting` runs (the returned Bool) and the state moves to
ExpectFinished. -/
def client_handle_ccs (joiner_empty : Bool) :
    Except TLSError (ClientConnState × Bool) :=
  if !joiner_empty then
    .error (.InappropriateMessage [ContentType.Handshake] ContentType.ChangeCipherSpec)
  else
    .ok (ClientConnState.ExpectFinished, true)

/-- The server's `handle_ccs` (src/server_hs.rs lines 792-805). -/
def server_handle_ccs (joiner_is_empty : Bool) :
    Except TLSError (ServerConnState × Bool) :=
  if !joiner_is_empty then
    .error (.InappropriateMessage [ContentType.Handshake] ContentType.ChangeCipherSpec)
  else
    .ok (ServerConnState.ExpectFinished, true)

/-- Rust `handle_finished_tls12` (src/client_hs.rs lines 853-874):
`expect_verify_data` is the `server_verify_data` PRF output the client
computes from its own secrets over the current transcript hash (the PRF
itself lives in session.rs, outside src/, so its output is the input
here).  A mismatch is `DecryptError`; a match saves the session and
reaches TrafficTLS12. -/
def client_handle_finished_tls12 (expect_verify_data finished : Bytes) :
    Except TLSError ClientConnState :=
  if expect_verify_data = finished then
    .ok ClientConnState.TrafficTLS12
  else
    .error TLSError.DecryptError

/-- What the server's successful `handle_finished` does besides moving to
Traffic. -/
structure ServerFinishedActions where
  stores_session : Bool
  emits_ticket_ccs_finished : Bool
  next : ServerConnState
deriving DecidableEq, Repr

/-- The server's `handle_finished` (src/server_hs.rs lines 883-915):
`expect_verify_data` is the `client_verify_data` PRF output.  A mismatch
is `DecryptError`; a match stores the session when not resuming and a
session id exists, sends ticket/CCS/Finished when not resuming, and
reaches Traffic. -/
def server_handle_finished (expect_verify_data finished : Bytes)
    (doing_resume : Bool) (session_id : SessionID) :
    Except TLSError ServerFinishedActions :=
  if expect_verify_data = finished then
    .ok { stores_session := !doing_resume && !session_id.is_empty,
          emits_ticket_ccs_finished := !doing_resume,
          next := ServerConnState.Traffic }
  else
    .error TLSError.DecryptError

/-- Modelled from the spec: the session driver (client.rs/server.rs, not
under src/) queues a fatal alert before surfacing a protocol error to the
caller (§7); for `DecryptError` the taxonomy entry specifies a fatal
DecryptError alert.  Errors whose handlers already queued an alert map to
`none` here. -/
def driver_fatal_alert : TLSError → Option AlertDescription
  | .DecryptError => some AlertDescription.DecryptError
  | _ => none

/-- The handshake message `emit_hello_retry_request` (src/server_hs.rs
lines 345-365) builds for the chosen group: a HelloRetryRequest at the
draft-18 version carrying a single KeyShare extension. -/
def emit_hello_retry_request_msg (group : Nat) : HandshakeMessagePayload :=
  { typ := htHelloRetryRequest,
    payload := HandshakePayload.HelloRetryRequest
      { server_version := pvTLS13Draft,
        extensions := [HelloRetryExtension.KeyShare group] } }

/-- A concrete 32-byte Random used by the concrete evaluations below. -/
def demoRandom : Random := { gmt_unix_time := 0, tail28 := List.replicate 28 0 }

/-- Rust `TLS_ECDHE_RSA_WITH_AES_128_GCM_SHA256` (src/suites.rs lines
209-219), with SHA256 = 4 and RSA = 1 as the hash/sign codes. -/
def demoSuite : SupportedCipherSuite :=
  { suite := 0xc02f, kx := KeyExchangeAlgorithm.ECDHE,
    bulk := BulkAlgorithm.AES_128_GCM, hash := 4, sign := 1,
    enc_key_len := 16, fixed_iv_len := 4, explicit_nonce_len := 8 }

/-- Rust `TLS_ECDHE_RSA_WITH_AES_256_GCM_SHA384` (src/suites.rs lines
221-231), with SHA384 = 5 and RSA = 1 as the hash/sign codes. -/
def demoSuite384 : SupportedCipherSuite :=
  { suite := 0xc030, kx := KeyExchangeAlgorithm.ECDHE,
    bulk := BulkAlgorithm.AES_256_GCM, hash := 5, sign := 1,
    enc_key_len := 32, fixed_iv_len := 4, explicit_nonce_len := 8 }

/-- Concrete handshake randoms for the concrete evaluations below. -/
def demoRandoms : SessionRandoms :=
  { client := List.replicate 32 1, server := List.replicate 32 2 }

/-- A concrete server configuration for the concrete evaluations below. -/
def demoServerConfig : ServerConfigModel :=
  { alpn_protocols := [], ticketer_enabled := false,
    gen_session_id := SessionID.new (List.replicate 16 5) }

/-- A concrete server handshake state, with the suite chosen and no
secrets installed yet. -/
def demoServerState : ServerHsState :=
  { suite := demoSuite, is_tls13 := false, randoms := demoRandoms,
    session_id := SessionID.empty, send_ticket := false,
    doing_resume := false, secrets := none,
    valid_client_cert_chain := none, alpn_protocol := none }

/-- A plain concrete ClientHello without extensions. -/
def demoClientHello : ClientHelloPayload :=
  { client_version := pvTLSv1_2, random := demoRandom,
    session_id := SessionID.empty, cipher_suites := [0xc02f],
    compression_methods := [compressionNull], extensions := [] }

/-- A ClientHello carrying the SessionTicket extension twice. -/
def demoDupClientHello : ClientHelloPayload :=
  { demoClientHello with
    extensions := [ClientExtension.SessionTicketRequest,
                   ClientExtension.SessionTicketRequest] }

/-- A ClientHello with duplicate extensions and a pre-TLS1.2 version. -/
def c3CounterClientHello : ClientHelloPayload :=
  { demoDupClientHello with client_version := pvTLSv1_0 }

/-- A ServerHello at TLS1.2 with Null compression carrying the
SessionTicket acknowledgement twice. -/
def demoDupServerHello : ServerHelloPayload :=
  { server_version := pvTLSv1_2, random := demoRandom,
    session_id := SessionID.empty, cipher_suite := 0xc02f,
    compression_method := compressionNull,
    extensions := [ServerExtension.SessionTicketAcknowledgement,
                   ServerExtension.SessionTicketAcknowledgement] }

/-- A concrete resumable server session value recorded at suite 0xc02f. -/
def demoResumeData : ServerSessionValue :=
  { cipher_suite := 0xc02f, master_secret := List.replicate 48 7,
    client_cert_chain := none }

/-- A concrete cached client session with a non-empty ticket. -/
def demoClientSession : ClientSessionValue :=
  { cipher_suite := 0xc02f, session_id := SessionID.new [1, 2, 3],
    ticket := [9, 9], master_secret := List.replicate 48 8 }

/-- A concrete non-empty session id echoed by the server. -/
def demoSessionId : SessionID := SessionID.new [1, 2, 3]

/-- C1.  The claim asserts `decode(encode(v)) == v` for every
`HandshakeMessagePayload` the library produces, including the
HelloRetryRequest built by `emit_hello_retry_request`.  The code violates
it: `HelloRetryExtension::encode` writes the extension type and the body
length but never appends the body, so decoding the encoding of the
HelloRetryRequest emitted for X25519 fails outright (`none` rather than
`some v`). -/
theorem c1_hrr_roundtrip_fails :
    HandshakeMessagePayload.read
      (HandshakeMessagePayload.encode (emit_hello_retry_request_msg ngX25519)) =
      none ∧
    HandshakeMessagePayload.encode (emit_hello_retry_request_msg ngX25519) =
      [6, 0, 0, 8, 0x7f, 0x12, 0, 4, 0, 40, 0, 2] := by
  constructor
  · rfl
  · rfl

/-- C4.  On both client and server, a ChangeCipherSpec delivered while the
handshake joiner holds a partial message is a fatal InappropriateMessage
error (expecting Handshake, got ChangeCipherSpec) and the receive
direction is not switched; with an empty joiner both sides switch the peer
to encryption and move to the expect-Finished state. -/
theorem c4_ccs_interleave :
    client_handle_ccs false =
      Except.error (TLSError.InappropriateMessage [ContentType.Handshake]
        ContentType.ChangeCipherSpec) ∧
    server_handle_ccs false =
      Except.error (TLSError.InappropriateMessage [ContentType.Handshake]
        ContentType.ChangeCipherSpec) ∧
    client_handle_ccs true = Except.ok (ClientConnState.ExpectFinished, true) ∧
    server_handle_ccs true = Except.ok (ServerConnState.ExpectFinished, true) := by
  exact ⟨rfl, rfl, rfl, rfl⟩

/-- Helper: the version-sensitive dispatch of `read_version` behaves
identically for every version other than `TLSv1_3` itself. -/
theorem readPayloadOfType_of_ne (typ : Nat) (sub : Bytes) (vers : Nat)
    (h : vers ≠ pvTLSv1_3) :
    readPayloadOfType typ vers sub = readPayloadOfType typ pvTLSv1_2 sub := by
  have h2 : ¬ (pvTLSv1_2 = pvTLSv1_3) := by decide
  simp only [readPayloadOfType, h, h2, and_false, if_false]

/-- C10.  `read_version` selects the TLS 1.3 encodings of Certificate and
NewSessionTicket only when the version argument is exactly `TLSv1_3`:
parsing with `Unknown(0x7f12)` coincides with parsing at `TLSv1_2` (the
classic encodings) on every input, even though the ServerHello codec's
`is_tls13` treats `0x7f12` as TLS 1.3. -/
theorem c10_read_version_draft_is_classic :
    (∀ bs : Bytes,
      HandshakeMessagePayload.read_version bs pvTLS13Draft =
        HandshakeMessagePayload.read_version bs pvTLSv1_2) ∧
    is_tls13 pvTLS13Draft = true ∧
    pvTLS13Draft ≠ pvTLSv1_3 := by
  refine ⟨fun bs => ?_, by decide, by decide⟩
  have key : ∀ typ sub, readPayloadOfType typ pvTLS13Draft sub =
      readPayloadOfType typ pvTLSv1_2 sub :=
    fun typ sub => readPayloadOfType_of_ne typ sub _ (by decide)
  simp only [HandshakeMessagePayload.read_version, key]

/-- Helper: the client-preference chooser is the first client suite with a
server match, looked up in the server list. -/
theorem choose_client_spec (cs : List Nat) (ss : List SupportedCipherSuite) :
    choose_ciphersuite_preferring_client cs ss =
      (cs.find? (fun c => ss.any (fun x => c == x.suite))).bind
        (fun c => ss.find? (fun x => c == x.suite)) := by
  induction cs with
  | nil => rfl
  | cons c rest ih =>
    simp only [choose_ciphersuite_preferring_client]
    cases hf : ss.find? (fun x => c == x.suite) with
    | some s =>
      have hp := List.find?_some hf
      have hmem := List.mem_of_find?_eq_some hf
      have hany : (ss.any (fun x => c == x.suite)) = true :=
        List.any_eq_true.mpr ⟨s, hmem, hp⟩
      rw [List.find?_cons_of_pos (p := fun c => ss.any (fun x => c == x.suite))
        rest hany]
      simp [hf]
    | none =>
      have hany : ¬ ((ss.any (fun x => c == x.suite)) = true) := by
        intro hx
        rcases List.any_eq_true.mp hx with ⟨s, hs, hps⟩
        exact absurd hps (by simpa using List.find?_eq_none.mp hf s hs)
      rw [List.find?_cons_of_neg (p := fun c => ss.any (fun x => c == x.suite))
        rest hany]
      simp only [hf]
      exact ih

/-- Helper: the client-preference chooser is empty exactly when no offered
suite id occurs in the server list. -/
theorem choose_client_none_iff (cs : List Nat) (ss : List SupportedCipherSuite) :
    choose_ciphersuite_preferring_client cs ss = none ↔
      ∀ c ∈ cs, ∀ s ∈ ss, c ≠ s.suite := by
  induction cs with
  | nil => simp [choose_ciphersuite_preferring_client]
  | cons c rest ih =>
    simp only [choose_ciphersuite_preferring_client]
    cases hf : ss.find? (fun x => c == x.suite) with
    | some s =>
      simp only [hf]
      constructor
      · intro h; simp at h
      · intro h
        exfalso
        have hp := List.find?_some hf
        have hmem := List.mem_of_find?_eq_some hf
        exact h c (List.mem_cons_self c rest) s hmem (by simpa using hp)
    | none =>
      simp only [hf, ih]
      constructor
      · intro h c1 hc1 s hs
        rcases List.mem_cons.mp hc1 with hceq | h1
        · subst hceq
          intro hreq
          exact absurd (by simpa using hreq :
            ((fun x => c1 == x.suite) s) = true)
            (List.find?_eq_none.mp hf s hs)
        · exact h c1 h1 s hs
      · intro h c1 hc1 s hs
        exact h c1 (List.mem_cons_of_mem _ hc1) s hs

/-- Helper: the server-preference chooser is empty exactly when no offered
suite id occurs in the server list. -/
theorem choose_server_none_iff (cs : List Nat) (ss : List SupportedCipherSuite) :
    choose_ciphersuite_preferring_server cs ss = none ↔
      ∀ c ∈ cs, ∀ s ∈ ss, c ≠ s.suite := by
  unfold choose_ciphersuite_preferring_server
  rw [List.find?_eq_none]
  constructor
  · intro h c hc s hs hceq
    subst hceq
    exact absurd (by simpa using hc : cs.contains s.suite = true) (by simpa using h s hs)
  · intro h s hs hcont
    have hmem : s.suite ∈ cs := by simpa using hcont
    exact (h s.suite hmem s hs) rfl

/-- C5.  `choose_ciphersuite_preferring_client` returns the first suite in
client order present in the server list, `choose_ciphersuite_preferring_server`
the first server-order suite the client offered (so
`choose_preferring_client([a,b],{a,b}) = a` and
`choose_preferring_server([a,b],[b,a]) = b`), and both are `none` exactly
when the two lists share no suite. -/
theorem c5_suite_preference (cs : List Nat) (ss : List SupportedCipherSuite) :
    (choose_ciphersuite_preferring_client cs ss =
      (cs.find? (fun c => ss.any (fun x => c == x.suite))).bind
        (fun c => ss.find? (fun x => c == x.suite))) ∧
    (choose_ciphersuite_preferring_server cs ss =
      ss.find? (fun x => cs.contains x.suite)) ∧
    (choose_ciphersuite_preferring_client cs ss = none ↔
      ∀ c ∈ cs, ∀ s ∈ ss, c ≠ s.suite) ∧
    (choose_ciphersuite_preferring_server cs ss = none ↔
      ∀ c ∈ cs, ∀ s ∈ ss, c ≠ s.suite) ∧
    (∀ a b : SupportedCipherSuite,
      choose_ciphersuite_preferring_client [a.suite, b.suite] [a, b] = some a ∧
      choose_ciphersuite_preferring_server [a.suite, b.suite] [b, a] = some b) := by
  refine ⟨choose_client_spec cs ss, rfl, choose_client_none_iff cs ss,
    choose_server_none_iff cs ss, fun a b => ⟨?_, ?_⟩⟩
  · simp [choose_ciphersuite_preferring_client]
  · simp [choose_ciphersuite_preferring_server]

/-- Witness for C5 at concrete suites. -/
theorem c5_suite_preference_witness :
    choose_ciphersuite_preferring_client
      [demoSuite.suite, demoSuite384.suite] [demoSuite, demoSuite384] =
      some demoSuite ∧
    choose_ciphersuite_preferring_server
      [demoSuite.suite, demoSuite384.suite] [demoSuite384, demoSuite] =
      some demoSuite384 := by
  exact (c5_suite_preference [] []).2.2.2.2 demoSuite demoSuite384

/-- Helper: `find_key_share` always leaves `offered_key_shares` empty. -/
theorem find_key_share_clears (group : Nat) (shares : List KeyExchange) :
    (find_key_share group shares).1 = [] := by
  induction shares with
  | nil => rfl
  | cons s rest ih =>
    simp only [find_key_share]
    by_cases h : s.group = group
    · simp [h]
    · simp [h, ih]

/-- Helper: `find_key_share` returns the first offered share of the chosen
group, or the IllegalParameter/PeerMisbehaved failure when none matches. -/
theorem find_key_share_spec (group : Nat) (shares : List KeyExchange) :
    (find_key_share group shares).2 =
      match shares.find? (fun s => s.group == group) with
      | some s => Except.ok s
      | none => Except.error (AlertDescription.IllegalParameter,
          TLSError.PeerMisbehavedError "wrong group for key share") := by
  induction shares with
  | nil => rfl
  | cons s rest ih =>
    by_cases h : s.group = group
    · rw [List.find?_cons_of_pos _ (by simpa using h)]
      simp [find_key_share, h]
    · rw [List.find?_cons_of_neg _ (by simpa using h)]
      simpa [find_key_share, h] using ih

/-- C7.  The shares `emit_client_hello` offers (one per supported group
for which ECDHE setup succeeds) stay in scratch until `find_key_share`
processes the ServerHello's chosen group; afterwards the scratch list is
always empty, and the result is the first share of the chosen group or —
when no share matches — the fatal IllegalParameter alert with
`PeerMisbehavedError`. -/
theorem c7_key_share_lifecycle (start_ecdhe : Nat → Option KeyExchange)
    (group : Nat) (shares : List KeyExchange) :
    (emit_client_hello_key_shares start_ecdhe =
      namedGroupsSupported.filterMap start_ecdhe) ∧
    ((find_key_share group shares).1 = []) ∧
    ((find_key_share group shares).2 =
      match shares.find? (fun s => s.group == group) with
      | some s => Except.ok s
      | none => Except.error (AlertDescription.IllegalParameter,
          TLSError.PeerMisbehavedError "wrong group for key share")) ∧
    ((find_key_share group (emit_client_hello_key_shares start_ecdhe)).1 = []) :=
  ⟨rfl, find_key_share_clears group shares, find_key_share_spec group shares,
    find_key_share_clears group _⟩

/-- C8.  The ClientHello session id is the freshly randomised 16-byte
value exactly in the cached-ticket case, the cached id unchanged for a
stateful resume, and empty without a cached session. -/
theorem c8_session_id_policy (random_id : Bytes)
    (resuming : Option ClientSessionValue) :
    (∀ csv, resuming = some csv → csv.ticket ≠ [] →
      (emit_client_hello_session_id random_id resuming).1 =
        SessionID.new random_id) ∧
    (∀ csv, resuming = some csv → csv.ticket = [] →
      (emit_client_hello_session_id random_id resuming).1 = csv.session_id) ∧
    (resuming = none →
      (emit_client_hello_session_id random_id resuming).1 = SessionID.empty) ∧
    (random_id.length = 16 → (SessionID.new random_id).bytes = random_id) := by
  refine ⟨?_, ?_, ?_, ?_⟩
  · intro csv hres hticket
    subst hres
    have : csv.ticket.length > 0 := List.length_pos.mpr hticket
    simp [emit_client_hello_session_id, randomise_sessionid_for_ticket, this]
  · intro csv hres hticket
    subst hres
    simp [emit_client_hello_session_id, randomise_sessionid_for_ticket, hticket]
  · intro hres
    subst hres
    rfl
  · intro hlen
    simp [SessionID.new, List.take_of_length_le, hlen]

/-- Witness for C8 at concrete inputs. -/
theorem c8_session_id_policy_witness :
    (emit_client_hello_session_id (List.replicate 16 4)
      (some demoClientSession)).1 = SessionID.new (List.replicate 16 4) ∧
    (SessionID.new (List.replicate 16 4)).bytes = List.replicate 16 4 ∧
    (emit_client_hello_session_id [] none).1 = SessionID.empty := by
  refine ⟨?_, ?_, ?_⟩
  · exact (c8_session_id_policy (List.replicate 16 4)
      (some demoClientSession)).1 demoClientSession rfl (by decide)
  · exact (c8_session_id_policy (List.replicate 16 4)
      (some demoClientSession)).2.2.2 (by decide)
  · exact (c8_session_id_policy [] none).2.2.1 rfl

/-- C9.  Every `SessionID` constructed through `new`, `empty` or `read`
holds at most 32 bytes (so the `encode` debug assertion holds), and `read`
rejects every input whose length prefix exceeds 32. -/
theorem c9_session_id_bounded (l : Bytes) (b : Nat) (rest input : Bytes)
    (sid : SessionID) (rem : Bytes) :
    (SessionID.new l).bytes.length ≤ 32 ∧
    SessionID.empty.bytes.length ≤ 32 ∧
    (32 < b → SessionID.read (b :: rest) = none) ∧
    (SessionID.read input = some (sid, rem) → sid.bytes.length ≤ 32) := by
  refine ⟨?_, by decide, ?_, ?_⟩
  · exact List.length_take_le 32 l
  · intro h
    simp only [SessionID.read, Codec.readU8, Codec.takeBytes]
    by_cases hble : b ≤ rest.length
    · simp [hble, Nat.not_le.mpr h]
    · simp [hble]
  · intro h
    cases input with
    | nil => simp [SessionID.read, Codec.readU8] at h
    | cons b0 rest0 =>
      simp only [SessionID.read, Codec.readU8, Codec.takeBytes] at h
      by_cases hble : b0 ≤ rest0.length
      · by_cases h32 : b0 ≤ 32
        · simp [hble, h32] at h
          have hsid : sid.bytes = rest0.take b0 := by
            rw [← h.1]
          rw [hsid]
          calc (rest0.take b0).length ≤ b0 := List.length_take_le b0 rest0
            _ ≤ 32 := h32
        · simp [hble, h32] at h
      · simp [hble] at h

/-- Witness for C9 at concrete inputs. -/
theorem c9_session_id_bounded_witness :
    SessionID.read [33] = none ∧
    SessionID.read [2, 9, 9] = some (⟨[9, 9]⟩, []) ∧
    (⟨[9, 9]⟩ : SessionID).bytes.length ≤ 32 := by
  refine ⟨?_, by decide, ?_⟩
  · exact (c9_session_id_bounded [] 33 [] [2, 9, 9] ⟨[9, 9]⟩ []).2.2.1 (by decide)
  · exact (c9_session_id_bounded [] 33 [] [2, 9, 9] ⟨[9, 9]⟩ []).2.2.2 (by decide)

/-- C3 counterexample.  The claim says every ClientHello with duplicate
extensions draws a fatal DecodeError alert and a `PeerMisbehavedError`.
This ClientHello carries the SessionTicket extension twice, yet because
its `client_version` is TLS 1.0 the handler's earlier version check fires
first: the alert is ProtocolVersion and the error `PeerIncompatibleError`,
not DecodeError/PeerMisbehavedError. -/
theorem c3_counterexample :
    c3CounterClientHello.has_duplicate_extension = true ∧
    server_client_hello_checks c3CounterClientHello =
      some (AlertDescription.ProtocolVersion,
        TLSError.PeerIncompatibleError "client does not support TLSv1_2") ∧
    server_client_hello_checks c3CounterClientHello ≠
      some (AlertDescription.DecodeError,
        TLSError.PeerMisbehavedError "client sent duplicate extensions") := by
  refine ⟨rfl, rfl, by decide⟩

/-- C3 as amended.  A ClientHello that passes the earlier version and
compression checks (client_version ≥ TLS1.2, Null compression offered) and
carries two extensions of one type is rejected with a fatal DecodeError
alert and `PeerMisbehavedError`; likewise a ServerHello whose version and
compression pass their earlier checks. -/
theorem c3_duplicate_extension_rejected (ch : ClientHelloPayload)
    (sh : ServerHelloPayload) :
    (pvTLSv1_2 ≤ ch.client_version →
      ch.compression_methods.contains compressionNull = true →
      ch.has_duplicate_extension = true →
      server_client_hello_checks ch =
        some (AlertDescription.DecodeError,
          TLSError.PeerMisbehavedError "client sent duplicate extensions")) ∧
    ((sh.server_version = pvTLSv1_2 ∨ sh.server_version = pvTLSv1_3 ∨
        sh.server_version = pvTLS13Draft) →
      sh.compression_method = compressionNull →
      sh.has_duplicate_extension = true →
      client_server_hello_checks sh =
        some (AlertDescription.DecodeError,
          TLSError.PeerMisbehavedError "server sent duplicate extensions")) := by
  constructor
  · intro hver hcomp hdup
    have hmem : compressionNull ∈ ch.compression_methods := by simpa using hcomp
    simp [server_client_hello_checks, Nat.not_lt.mpr hver, hmem, hdup]
  · intro hver hcomp hdup
    simp [client_server_hello_checks, hver, hcomp, hdup]

/-- Witness for the amended C3 at concrete duplicate-extension hellos. -/
theorem c3_duplicate_extension_rejected_witness :
    server_client_hello_checks demoDupClientHello =
      some (AlertDescription.DecodeError,
        TLSError.PeerMisbehavedError "client sent duplicate extensions") ∧
    client_server_hello_checks demoDupServerHello =
      some (AlertDescription.DecodeError,
        TLSError.PeerMisbehavedError "server sent duplicate extensions") := by
  constructor
  · exact (c3_duplicate_extension_rejected demoDupClientHello
      demoDupServerHello).1 (by decide) (by decide) (by decide)
  · exact (c3_duplicate_extension_rejected demoDupClientHello
      demoDupServerHello).2 (Or.inl (by decide)) (by decide) (by decide)

/-- C6.  A received TLS 1.2 Finished whose payload differs from the
verify_data the receiver computed is rejected with `DecryptError` on both
sides (the session driver queues the fatal DecryptError alert) and the
handler never returns a successor state, so Traffic is not reached; a
matching payload succeeds and transitions to Traffic. -/
theorem c6_finished_verify (expect finished : Bytes) (doing_resume : Bool)
    (sid : SessionID) :
    (expect ≠ finished →
      client_handle_finished_tls12 expect finished =
        Except.error TLSError.DecryptError ∧
      server_handle_finished expect finished doing_resume sid =
        Except.error TLSError.DecryptError ∧
      driver_fatal_alert TLSError.DecryptError =
        some AlertDescription.DecryptError ∧
      (∀ st, client_handle_finished_tls12 expect finished ≠ Except.ok st) ∧
      (∀ acts, server_handle_finished expect finished doing_resume sid ≠
        Except.ok acts)) ∧
    (expect = finished →
      client_handle_finished_tls12 expect finished =
        Except.ok ClientConnState.TrafficTLS12 ∧
      ∃ acts, server_handle_finished expect finished doing_resume sid =
        Except.ok acts ∧ acts.next = ServerConnState.Traffic) := by
  constructor
  · intro hne
    refine ⟨?_, ?_, rfl, ?_, ?_⟩
    · simp [client_handle_finished_tls12, hne]
    · simp [server_handle_finished, hne]
    · intro st
      simp [client_handle_finished_tls12, hne]
    · intro acts
      simp [server_handle_finished, hne]
  · intro heq
    refine ⟨?_, ?_⟩
    · simp [client_handle_finished_tls12, heq]
    · have hval : server_handle_finished expect finished doing_resume sid =
          Except.ok { stores_session := !doing_resume && !sid.is_empty,
                      emits_ticket_ccs_finished := !doing_resume,
                      next := ServerConnState.Traffic } := by
        simp [server_handle_finished, heq]
      exact ⟨_, hval, rfl⟩

/-- Witness for C6 at concrete verify_data values. -/
theorem c6_finished_verify_witness :
    client_handle_finished_tls12 [1, 2] [3, 4] =
      Except.error TLSError.DecryptError ∧
    client_handle_finished_tls12 [1, 2] [1, 2] =
      Except.ok ClientConnState.TrafficTLS12 := by
  constructor
  · exact ((c6_finished_verify [1, 2] [3, 4] false SessionID.empty).1
      (by decide)).1
  · exact ((c6_finished_verify [1, 2] [1, 2] false SessionID.empty).2 rfl).1

/-- C2.  Server: `start_resumption` rejects a resumed session whose
recorded suite differs from the just-chosen suite with
`PeerMisbehavedError` and installs no secrets; when it accepts, the chosen
suite equals the recorded one and the recorded master secret is installed
verbatim through `SessionSecrets::new_resume`.  Client: when the
ServerHello echoes the offered session id, a varied suite is a fatal
`PeerMisbehavedError`, otherwise the cached master secret is reused via
`SessionSecrets::new_resume`. -/
theorem c2_resumption_invariant (config : ServerConfigModel)
    (st : ServerHsState) (ch : ClientHelloPayload) (id : SessionID)
    (rd : ServerSessionValue) (resuming : Option ClientSessionValue)
    (sid : SessionID) (scs : SupportedCipherSuite)
    (randoms : SessionRandoms) (mint : Bool) :
    (st.suite.suite ≠ rd.cipher_suite →
      (start_resumption config st ch id rd).2 =
        Except.error (TLSError.PeerMisbehavedError
          "client varied ciphersuite over resumption") ∧
      (start_resumption config st ch id rd).1.secrets = st.secrets) ∧
    (∀ next, (start_resumption config st ch id rd).2 = Except.ok next →
      st.suite.suite = rd.cipher_suite ∧
      ∃ sec, (start_resumption config st ch id rd).1.secrets = some sec ∧
        sec.master_secret = rd.master_secret) ∧
    (∀ r, resuming = some r → r.session_id = sid →
      r.cipher_suite ≠ scs.suite →
      client_see_resumption resuming sid scs randoms mint =
        Except.error (TLSError.PeerMisbehavedError
          "abbreviated handshake offered, but with varied cs")) ∧
    (∀ r, resuming = some r → r.session_id = sid →
      r.cipher_suite = scs.suite →
      ∃ next, client_see_resumption resuming sid scs randoms mint =
        Except.ok (some (SessionSecrets.new_resume randoms scs.hash
          r.master_secret), next)) := by
  refine ⟨?_, ?_, ?_, ?_⟩
  · intro hne
    unfold start_resumption
    rw [if_pos hne]
    exact ⟨rfl, rfl⟩
  · intro next hok
    by_cases hc : st.suite.suite = rd.cipher_suite
    · refine ⟨hc, ?_⟩
      unfold start_resumption at hok ⊢
      rw [if_neg (fun hne => hne hc)] at hok ⊢
      cases hemit : emit_server_hello config { st with session_id := id } ch with
      | error e =>
        rw [hemit] at hok
        simp at hok
      | ok pr =>
        obtain ⟨st2, sh⟩ := pr
        exact ⟨_, rfl, rfl⟩
    · unfold start_resumption at hok
      rw [if_pos hc] at hok
      simp at hok
  · intro r hres hsid hne
    subst hres
    simp [client_see_resumption, hsid, hne]
  · intro r hres hsid heq
    subst hres
    refine ⟨if mint then ClientConnState.ExpectNewTicketResume
      else ClientConnState.ExpectCCSResume, ?_⟩
    simp [client_see_resumption, hsid, heq]

/-- Witness for C2: a concrete accepted server resumption, a concrete
client suite mismatch, and a concrete client suite match. -/
theorem c2_resumption_invariant_witness :
    (start_resumption demoServerConfig demoServerState demoClientHello
      demoSessionId demoResumeData).2 = Except.ok ServerConnState.ExpectCCS ∧
    demoServerState.suite.suite = demoResumeData.cipher_suite ∧
    (∃ sec, (start_resumption demoServerConfig demoServerState demoClientHello
        demoSessionId demoResumeData).1.secrets = some sec ∧
      sec.master_secret = demoResumeData.master_secret) ∧
    client_see_resumption (some demoClientSession) demoSessionId demoSuite384
        demoRandoms false =
      Except.error (TLSError.PeerMisbehavedError
        "abbreviated handshake offered, but with varied cs") ∧
    (∃ next, client_see_resumption (some demoClientSession) demoSessionId
        demoSuite demoRandoms false =
      Except.ok (some (SessionSecrets.new_resume demoRandoms demoSuite.hash
        demoClientSession.master_secret), next)) := by
  have hok : (start_resumption demoServerConfig demoServerState demoClientHello
      demoSessionId demoResumeData).2 = Except.ok ServerConnState.ExpectCCS := by
    rfl
  have h := c2_resumption_invariant demoServerConfig demoServerState
    demoClientHello demoSessionId demoResumeData (some demoClientSession)
    demoSessionId demoSuite demoRandoms false
  have h384 := c2_resumption_invariant demoServerConfig demoServerState
    demoClientHello demoSessionId demoResumeData (some demoClientSession)
    demoSessionId demoSuite384 demoRandoms false
  obtain ⟨hsuite, hsec⟩ := h.2.1 ServerConnState.ExpectCCS hok
  refine ⟨hok, hsuite, hsec, ?_, ?_⟩
  · exact h384.2.2.1 demoClientSession rfl (by decide) (by decide)
  · exact h.2.2.2 demoClientSession rfl (by decide) (by decide)

end Rustls
